import Mathlib

/-!
# cx_PencilLine: classifier, compositing policy, dispatch and prepare step

A shallow embedding of `src/plugins/cx_PencilLine/PencilLine.cpp` and
`PencilLine.h`, and of the rectangle union of `src/shared/CXCommon.h`.

Conventions of the embedding.

* `A_long`, `PF_Err`, `PF_Boolean` and the pixel-format tag are integers (`Int`);
  8-bit and 16-bit channels are naturals (`Nat`).  No arithmetic is performed on
  them by the functions embedded here.  The one narrowing conversion, of the
  `A_long` value of a checkbox to the one-byte `PF_Boolean`, is `toPF_Boolean`.
* `PF_FpShort` (channel of a float pixel) is a type parameter `F` and `PF_FpLong`
  (tolerance, density, strength) is a type parameter `D`.  The code only copies
  such values, writes the constant zero, or hands them to a helper of
  `CXCommon.h`; `[Zero F]` / `[Zero D]` supply `0.0f` and the all-zero bit pattern
  written by `memset`.
* `CX_IsTargetColor8`, `CX_IsTargetColor16`, `CX_IsTargetColorFloat` and
  `CX_ToleranceToDistSq` are called by `PencilLine.cpp` but are not defined in
  the `CXCommon.h` at hand; they are fields of the parameter `CXCommon`.
* A function writing through a pointer `outP` takes the previous contents of
  `*outP` and returns the new contents.
* Reading `info->colors[i]` with `i` outside `0..15` is undefined behaviour and is
  modelled by `none`.
-/

namespace PencilLine

/-! ## Data model (`PencilLine.h`) -/

/-- Error code `PF_Err` of the host interface. -/
abbrev PF_Err := Int

/-- Host constant `PF_Err_NONE`. -/
def PF_Err_NONE : PF_Err := 0

/-- The conversion of an `A_long` to the host's one-byte `PF_Boolean`: the byte
stored consists of the low eight bits of the value, here as a number in 0..255.
It keeps 0 and 1, and 256 becomes 0.  The code only tests such a byte against
zero. -/
def toPF_Boolean (v : Int) : Int := v % 256

/-- The constant `MAX_COLORS` of `PencilLine.h`. -/
abbrev MAX_COLORS : Nat := 16

/-- Enumerator `OUTPUT_MODE_FULL = 1`. -/
def OUTPUT_MODE_FULL : Int := 1

/-- Enumerator `OUTPUT_MODE_LINE_ONLY` (follows `OUTPUT_MODE_FULL`). -/
def OUTPUT_MODE_LINE_ONLY : Int := 2

/-- Enumerator `OUTPUT_MODE_BG_ONLY` (follows `OUTPUT_MODE_LINE_ONLY`). -/
def OUTPUT_MODE_BG_ONLY : Int := 3

/-- An 8-bit ARGB pixel (`PF_Pixel8`, also named `PF_Pixel`). -/
structure PF_Pixel8 where
  alpha : Nat
  red : Nat
  green : Nat
  blue : Nat
  deriving DecidableEq, Repr

/-- The host's `PF_Pixel` is the 8-bit pixel. -/
abbrev PF_Pixel := PF_Pixel8

/-- A 16-bit ARGB pixel (`PF_Pixel16`). -/
structure PF_Pixel16 where
  alpha : Nat
  red : Nat
  green : Nat
  blue : Nat
  deriving DecidableEq, Repr

/-- A float ARGB pixel (`PF_PixelFloat`), over the channel type `F`. -/
structure PF_PixelFloat (F : Type) where
  alpha : F
  red : F
  green : F
  blue : F
  deriving DecidableEq, Repr

/-- The `struct ColorEntry` of `PencilLine.h`. -/
structure ColorEntry (D : Type) where
  enabled : Int
  color : PF_Pixel
  tolerance : D
  toleranceSq : Int
  deriving DecidableEq, Repr

/-- The `struct PencilLineInfo` of `PencilLine.h`; `colors` is the array
`ColorEntry colors[MAX_COLORS]`. -/
structure PencilLineInfo (D : Type) where
  colorCount : Int
  colors : Fin MAX_COLORS → ColorEntry D
  lineWidth : Int
  lineDensity : D
  textureStrength : D
  outputMode : Int

/-- The helpers of `CXCommon.h` that `PencilLine.cpp` calls and whose definitions
are not in the sources at hand.  The per-entry tests receive the pixel, the red,
green and blue of the entry's colour and its `toleranceSq`;
`CX_ToleranceToDistSq` is taken together with the conversion of its result to the
`A_long` field `toleranceSq`. -/
structure CXCommon (F D : Type) where
  CX_IsTargetColor8 : PF_Pixel8 → Nat → Nat → Nat → Int → Bool
  CX_IsTargetColor16 : PF_Pixel16 → Nat → Nat → Nat → Int → Bool
  CX_IsTargetColorFloat : PF_PixelFloat F → Nat → Nat → Nat → Int → Bool
  CX_ToleranceToDistSq : D → Int

/-! ## Colour matching (`PencilLine.cpp`, lines 17-51) -/

/-- The loop of `IsTargetColor8`: `n` iterations remain and the loop variable
is `i`. -/
def IsTargetColor8.loop {F D : Type} (cx : CXCommon F D) (pixel : PF_Pixel8)
    (info : PencilLineInfo D) : Nat → Nat → Option Bool
  | 0, _ => some false
  | n + 1, i =>
    if h : i < MAX_COLORS then
      let entry := info.colors ⟨i, h⟩
      if entry.enabled = 0 then IsTargetColor8.loop cx pixel info n (i + 1)
      else if cx.CX_IsTargetColor8 pixel entry.color.red entry.color.green entry.color.blue
          entry.toleranceSq then some true
      else IsTargetColor8.loop cx pixel info n (i + 1)
    else none

/-- The function `IsTargetColor8`: the body runs for `i = 0, ..., colorCount - 1`
(not at all when `colorCount ≤ 0`) unless it returns early. -/
def IsTargetColor8 {F D : Type} (cx : CXCommon F D) (pixel : PF_Pixel8)
    (info : PencilLineInfo D) : Option Bool :=
  IsTargetColor8.loop cx pixel info info.colorCount.toNat 0

/-- The loop of `IsTargetColor16`. -/
def IsTargetColor16.loop {F D : Type} (cx : CXCommon F D) (pixel : PF_Pixel16)
    (info : PencilLineInfo D) : Nat → Nat → Option Bool
  | 0, _ => some false
  | n + 1, i =>
    if h : i < MAX_COLORS then
      let entry := info.colors ⟨i, h⟩
      if entry.enabled = 0 then IsTargetColor16.loop cx pixel info n (i + 1)
      else if cx.CX_IsTargetColor16 pixel entry.color.red entry.color.green entry.color.blue
          entry.toleranceSq then some true
      else IsTargetColor16.loop cx pixel info n (i + 1)
    else none

/-- The function `IsTargetColor16`. -/
def IsTargetColor16 {F D : Type} (cx : CXCommon F D) (pixel : PF_Pixel16)
    (info : PencilLineInfo D) : Option Bool :=
  IsTargetColor16.loop cx pixel info info.colorCount.toNat 0

/-- The loop of `IsTargetColorFloat`. -/
def IsTargetColorFloat.loop {F D : Type} (cx : CXCommon F D) (pixel : PF_PixelFloat F)
    (info : PencilLineInfo D) : Nat → Nat → Option Bool
  | 0, _ => some false
  | n + 1, i =>
    if h : i < MAX_COLORS then
      let entry := info.colors ⟨i, h⟩
      if entry.enabled = 0 then IsTargetColorFloat.loop cx pixel info n (i + 1)
      else if cx.CX_IsTargetColorFloat pixel entry.color.red entry.color.green
          entry.color.blue entry.toleranceSq then some true
      else IsTargetColorFloat.loop cx pixel info n (i + 1)
    else none

/-- The function `IsTargetColorFloat`. -/
def IsTargetColorFloat {F D : Type} (cx : CXCommon F D) (pixel : PF_PixelFloat F)
    (info : PencilLineInfo D) : Option Bool :=
  IsTargetColorFloat.loop cx pixel info info.colorCount.toNat 0

/-! ## Pencil texture placeholder (`PencilLine.cpp`, lines 57-96) -/

/-- The function `ApplyPencilTexture8`: four field assignments. -/
def ApplyPencilTexture8 {D : Type} (outP inP : PF_Pixel8) (_info : PencilLineInfo D)
    (_x _y : Int) : PF_Pixel8 :=
  { outP with alpha := inP.alpha, red := inP.red, green := inP.green, blue := inP.blue }

/-- The function `ApplyPencilTexture16`. -/
def ApplyPencilTexture16 {D : Type} (outP inP : PF_Pixel16) (_info : PencilLineInfo D)
    (_x _y : Int) : PF_Pixel16 :=
  { outP with alpha := inP.alpha, red := inP.red, green := inP.green, blue := inP.blue }

/-- The function `ApplyPencilTextureFloat`. -/
def ApplyPencilTextureFloat {F D : Type} (outP inP : PF_PixelFloat F)
    (_info : PencilLineInfo D) (_x _y : Int) : PF_PixelFloat F :=
  { outP with alpha := inP.alpha, red := inP.red, green := inP.green, blue := inP.blue }

/-! ## Per-pixel processing (`PencilLine.cpp`, lines 102-244) -/

/-- The function `ProcessPencilLine8`: returned error code and new `*outP`. -/
def ProcessPencilLine8 {F D : Type} (cx : CXCommon F D) (info : PencilLineInfo D)
    (x y : Int) (inP outP : PF_Pixel8) : Option (PF_Err × PF_Pixel8) :=
  match IsTargetColor8 cx inP info with
  | none => none
  | some isTargetColor =>
    some (PF_Err_NONE,
      if info.outputMode = OUTPUT_MODE_LINE_ONLY then
        if isTargetColor then ApplyPencilTexture8 outP inP info x y
        else { outP with alpha := 0, red := 0, green := 0, blue := 0 }
      else if info.outputMode = OUTPUT_MODE_BG_ONLY then
        if isTargetColor then { outP with alpha := 0, red := 0, green := 0, blue := 0 }
        else inP
      else
        if isTargetColor then ApplyPencilTexture8 outP inP info x y
        else inP)

/-- The function `ProcessPencilLine16`. -/
def ProcessPencilLine16 {F D : Type} (cx : CXCommon F D) (info : PencilLineInfo D)
    (x y : Int) (inP outP : PF_Pixel16) : Option (PF_Err × PF_Pixel16) :=
  match IsTargetColor16 cx inP info with
  | none => none
  | some isTargetColor =>
    some (PF_Err_NONE,
      if info.outputMode = OUTPUT_MODE_LINE_ONLY then
        if isTargetColor then ApplyPencilTexture16 outP inP info x y
        else { outP with alpha := 0, red := 0, green := 0, blue := 0 }
      else if info.outputMode = OUTPUT_MODE_BG_ONLY then
        if isTargetColor then { outP with alpha := 0, red := 0, green := 0, blue := 0 }
        else inP
      else
        if isTargetColor then ApplyPencilTexture16 outP inP info x y
        else inP)

/-- The function `ProcessPencilLineFloat`. -/
def ProcessPencilLineFloat {F D : Type} [Zero F] (cx : CXCommon F D)
    (info : PencilLineInfo D) (x y : Int) (inP outP : PF_PixelFloat F) :
    Option (PF_Err × PF_PixelFloat F) :=
  match IsTargetColorFloat cx inP info with
  | none => none
  | some isTargetColor =>
    some (PF_Err_NONE,
      if info.outputMode = OUTPUT_MODE_LINE_ONLY then
        if isTargetColor then ApplyPencilTextureFloat outP inP info x y
        else { outP with alpha := 0, red := 0, green := 0, blue := 0 }
      else if info.outputMode = OUTPUT_MODE_BG_ONLY then
        if isTargetColor then { outP with alpha := 0, red := 0, green := 0, blue := 0 }
        else inP
      else
        if isTargetColor then ApplyPencilTextureFloat outP inP info x y
        else inP)

/-! ## Parameter indices (`PencilLine.h`, lines 55-141 and 225-228) -/

/-- Enumerator `PENCILLINE_INPUT = 0`. -/
def PENCILLINE_INPUT : Int := 0

/-- Enumerator `PENCILLINE_COLOR_GROUP` (second of the enumeration). -/
def PENCILLINE_COLOR_GROUP : Int := 1

/-- Enumerator `PENCILLINE_COLOR1_ENABLED`. -/
def PENCILLINE_COLOR1_ENABLED : Int := 2

/-- Enumerator `PENCILLINE_COLOR1`. -/
def PENCILLINE_COLOR1 : Int := 3

/-- Enumerator `PENCILLINE_COLOR1_TOLERANCE`. -/
def PENCILLINE_COLOR1_TOLERANCE : Int := 4

/-- Enumerator `PENCILLINE_COLOR2_ENABLED`: it follows `PENCILLINE_COLOR1_TOLERANCE`. -/
def PENCILLINE_COLOR2_ENABLED : Int := PENCILLINE_COLOR1_TOLERANCE + 1

/-- Enumerator `PENCILLINE_COLOR2`: it follows `PENCILLINE_COLOR2_ENABLED`. -/
def PENCILLINE_COLOR2 : Int := PENCILLINE_COLOR2_ENABLED + 1

/-- Enumerator `PENCILLINE_COLOR2_TOLERANCE`: it follows `PENCILLINE_COLOR2`. -/
def PENCILLINE_COLOR2_TOLERANCE : Int := PENCILLINE_COLOR2 + 1

/-- Enumerator `PENCILLINE_COLOR3_ENABLED`: it follows `PENCILLINE_COLOR2_TOLERANCE`. -/
def PENCILLINE_COLOR3_ENABLED : Int := PENCILLINE_COLOR2_TOLERANCE + 1

/-- Enumerator `PENCILLINE_COLOR3`: it follows `PENCILLINE_COLOR3_ENABLED`. -/
def PENCILLINE_COLOR3 : Int := PENCILLINE_COLOR3_ENABLED + 1

/-- Enumerator `PENCILLINE_COLOR3_TOLERANCE`: it follows `PENCILLINE_COLOR3`. -/
def PENCILLINE_COLOR3_TOLERANCE : Int := PENCILLINE_COLOR3 + 1

/-- Enumerator `PENCILLINE_COLOR4_ENABLED`: it follows `PENCILLINE_COLOR3_TOLERANCE`. -/
def PENCILLINE_COLOR4_ENABLED : Int := PENCILLINE_COLOR3_TOLERANCE + 1

/-- Enumerator `PENCILLINE_COLOR4`: it follows `PENCILLINE_COLOR4_ENABLED`. -/
def PENCILLINE_COLOR4 : Int := PENCILLINE_COLOR4_ENABLED + 1

/-- Enumerator `PENCILLINE_COLOR4_TOLERANCE`: it follows `PENCILLINE_COLOR4`. -/
def PENCILLINE_COLOR4_TOLERANCE : Int := PENCILLINE_COLOR4 + 1

/-- Enumerator `PENCILLINE_COLOR5_ENABLED`: it follows `PENCILLINE_COLOR4_TOLERANCE`. -/
def PENCILLINE_COLOR5_ENABLED : Int := PENCILLINE_COLOR4_TOLERANCE + 1

/-- Enumerator `PENCILLINE_COLOR5`: it follows `PENCILLINE_COLOR5_ENABLED`. -/
def PENCILLINE_COLOR5 : Int := PENCILLINE_COLOR5_ENABLED + 1

/-- Enumerator `PENCILLINE_COLOR5_TOLERANCE`: it follows `PENCILLINE_COLOR5`. -/
def PENCILLINE_COLOR5_TOLERANCE : Int := PENCILLINE_COLOR5 + 1

/-- Enumerator `PENCILLINE_COLOR6_ENABLED`: it follows `PENCILLINE_COLOR5_TOLERANCE`. -/
def PENCILLINE_COLOR6_ENABLED : Int := PENCILLINE_COLOR5_TOLERANCE + 1

/-- Enumerator `PENCILLINE_COLOR6`: it follows `PENCILLINE_COLOR6_ENABLED`. -/
def PENCILLINE_COLOR6 : Int := PENCILLINE_COLOR6_ENABLED + 1

/-- Enumerator `PENCILLINE_COLOR6_TOLERANCE`: it follows `PENCILLINE_COLOR6`. -/
def PENCILLINE_COLOR6_TOLERANCE : Int := PENCILLINE_COLOR6 + 1

/-- Enumerator `PENCILLINE_COLOR7_ENABLED`: it follows `PENCILLINE_COLOR6_TOLERANCE`. -/
def PENCILLINE_COLOR7_ENABLED : Int := PENCILLINE_COLOR6_TOLERANCE + 1

/-- Enumerator `PENCILLINE_COLOR7`: it follows `PENCILLINE_COLOR7_ENABLED`. -/
def PENCILLINE_COLOR7 : Int := PENCILLINE_COLOR7_ENABLED + 1

/-- Enumerator `PENCILLINE_COLOR7_TOLERANCE`: it follows `PENCILLINE_COLOR7`. -/
def PENCILLINE_COLOR7_TOLERANCE : Int := PENCILLINE_COLOR7 + 1

/-- Enumerator `PENCILLINE_COLOR8_ENABLED`: it follows `PENCILLINE_COLOR7_TOLERANCE`. -/
def PENCILLINE_COLOR8_ENABLED : Int := PENCILLINE_COLOR7_TOLERANCE + 1

/-- Enumerator `PENCILLINE_COLOR8`: it follows `PENCILLINE_COLOR8_ENABLED`. -/
def PENCILLINE_COLOR8 : Int := PENCILLINE_COLOR8_ENABLED + 1

/-- Enumerator `PENCILLINE_COLOR8_TOLERANCE`: it follows `PENCILLINE_COLOR8`. -/
def PENCILLINE_COLOR8_TOLERANCE : Int := PENCILLINE_COLOR8 + 1

/-- Enumerator `PENCILLINE_COLOR9_ENABLED`: it follows `PENCILLINE_COLOR8_TOLERANCE`. -/
def PENCILLINE_COLOR9_ENABLED : Int := PENCILLINE_COLOR8_TOLERANCE + 1

/-- Enumerator `PENCILLINE_COLOR9`: it follows `PENCILLINE_COLOR9_ENABLED`. -/
def PENCILLINE_COLOR9 : Int := PENCILLINE_COLOR9_ENABLED + 1

/-- Enumerator `PENCILLINE_COLOR9_TOLERANCE`: it follows `PENCILLINE_COLOR9`. -/
def PENCILLINE_COLOR9_TOLERANCE : Int := PENCILLINE_COLOR9 + 1

/-- Enumerator `PENCILLINE_COLOR10_ENABLED`: it follows `PENCILLINE_COLOR9_TOLERANCE`. -/
def PENCILLINE_COLOR10_ENABLED : Int := PENCILLINE_COLOR9_TOLERANCE + 1

/-- Enumerator `PENCILLINE_COLOR10`: it follows `PENCILLINE_COLOR10_ENABLED`. -/
def PENCILLINE_COLOR10 : Int := PENCILLINE_COLOR10_ENABLED + 1

/-- Enumerator `PENCILLINE_COLOR10_TOLERANCE`: it follows `PENCILLINE_COLOR10`. -/
def PENCILLINE_COLOR10_TOLERANCE : Int := PENCILLINE_COLOR10 + 1

/-- Enumerator `PENCILLINE_COLOR11_ENABLED`: it follows `PENCILLINE_COLOR10_TOLERANCE`. -/
def PENCILLINE_COLOR11_ENABLED : Int := PENCILLINE_COLOR10_TOLERANCE + 1

/-- Enumerator `PENCILLINE_COLOR11`: it follows `PENCILLINE_COLOR11_ENABLED`. -/
def PENCILLINE_COLOR11 : Int := PENCILLINE_COLOR11_ENABLED + 1

/-- Enumerator `PENCILLINE_COLOR11_TOLERANCE`: it follows `PENCILLINE_COLOR11`. -/
def PENCILLINE_COLOR11_TOLERANCE : Int := PENCILLINE_COLOR11 + 1

/-- Enumerator `PENCILLINE_COLOR12_ENABLED`: it follows `PENCILLINE_COLOR11_TOLERANCE`. -/
def PENCILLINE_COLOR12_ENABLED : Int := PENCILLINE_COLOR11_TOLERANCE + 1

/-- Enumerator `PENCILLINE_COLOR12`: it follows `PENCILLINE_COLOR12_ENABLED`. -/
def PENCILLINE_COLOR12 : Int := PENCILLINE_COLOR12_ENABLED + 1

/-- Enumerator `PENCILLINE_COLOR12_TOLERANCE`: it follows `PENCILLINE_COLOR12`. -/
def PENCILLINE_COLOR12_TOLERANCE : Int := PENCILLINE_COLOR12 + 1

/-- Enumerator `PENCILLINE_COLOR13_ENABLED`: it follows `PENCILLINE_COLOR12_TOLERANCE`. -/
def PENCILLINE_COLOR13_ENABLED : Int := PENCILLINE_COLOR12_TOLERANCE + 1

/-- Enumerator `PENCILLINE_COLOR13`: it follows `PENCILLINE_COLOR13_ENABLED`. -/
def PENCILLINE_COLOR13 : Int := PENCILLINE_COLOR13_ENABLED + 1

/-- Enumerator `PENCILLINE_COLOR13_TOLERANCE`: it follows `PENCILLINE_COLOR13`. -/
def PENCILLINE_COLOR13_TOLERANCE : Int := PENCILLINE_COLOR13 + 1

/-- Enumerator `PENCILLINE_COLOR14_ENABLED`: it follows `PENCILLINE_COLOR13_TOLERANCE`. -/
def PENCILLINE_COLOR14_ENABLED : Int := PENCILLINE_COLOR13_TOLERANCE + 1

/-- Enumerator `PENCILLINE_COLOR14`: it follows `PENCILLINE_COLOR14_ENABLED`. -/
def PENCILLINE_COLOR14 : Int := PENCILLINE_COLOR14_ENABLED + 1

/-- Enumerator `PENCILLINE_COLOR14_TOLERANCE`: it follows `PENCILLINE_COLOR14`. -/
def PENCILLINE_COLOR14_TOLERANCE : Int := PENCILLINE_COLOR14 + 1

/-- Enumerator `PENCILLINE_COLOR15_ENABLED`: it follows `PENCILLINE_COLOR14_TOLERANCE`. -/
def PENCILLINE_COLOR15_ENABLED : Int := PENCILLINE_COLOR14_TOLERANCE + 1

/-- Enumerator `PENCILLINE_COLOR15`: it follows `PENCILLINE_COLOR15_ENABLED`. -/
def PENCILLINE_COLOR15 : Int := PENCILLINE_COLOR15_ENABLED + 1

/-- Enumerator `PENCILLINE_COLOR15_TOLERANCE`: it follows `PENCILLINE_COLOR15`. -/
def PENCILLINE_COLOR15_TOLERANCE : Int := PENCILLINE_COLOR15 + 1

/-- Enumerator `PENCILLINE_COLOR16_ENABLED`: it follows `PENCILLINE_COLOR15_TOLERANCE`. -/
def PENCILLINE_COLOR16_ENABLED : Int := PENCILLINE_COLOR15_TOLERANCE + 1

/-- Enumerator `PENCILLINE_COLOR16`: it follows `PENCILLINE_COLOR16_ENABLED`. -/
def PENCILLINE_COLOR16 : Int := PENCILLINE_COLOR16_ENABLED + 1

/-- Enumerator `PENCILLINE_COLOR16_TOLERANCE`: it follows `PENCILLINE_COLOR16`. -/
def PENCILLINE_COLOR16_TOLERANCE : Int := PENCILLINE_COLOR16 + 1

/-- Enumerator `PENCILLINE_COLOR_GROUP_END`: it follows the 48 colour
enumerators, which start at 2. -/
def PENCILLINE_COLOR_GROUP_END : Int := 50

/-- Enumerator `PENCILLINE_TEXTURE_GROUP`. -/
def PENCILLINE_TEXTURE_GROUP : Int := 51

/-- Enumerator `PENCILLINE_LINE_WIDTH`. -/
def PENCILLINE_LINE_WIDTH : Int := 52

/-- Enumerator `PENCILLINE_LINE_DENSITY`. -/
def PENCILLINE_LINE_DENSITY : Int := 53

/-- Enumerator `PENCILLINE_TEXTURE_STRENGTH`. -/
def PENCILLINE_TEXTURE_STRENGTH : Int := 54

/-- Enumerator `PENCILLINE_TEXTURE_GROUP_END`. -/
def PENCILLINE_TEXTURE_GROUP_END : Int := 55

/-- Enumerator `PENCILLINE_OUTPUT_GROUP`. -/
def PENCILLINE_OUTPUT_GROUP : Int := 56

/-- Enumerator `PENCILLINE_OUTPUT_MODE`. -/
def PENCILLINE_OUTPUT_MODE : Int := 57

/-- Enumerator `PENCILLINE_OUTPUT_GROUP_END`. -/
def PENCILLINE_OUTPUT_GROUP_END : Int := 58

/-- Enumerator `PENCILLINE_NUM_PARAMS`. -/
def PENCILLINE_NUM_PARAMS : Int := 59

/-- The macro `COLOR_ENABLED_PARAM(n)`. -/
def COLOR_ENABLED_PARAM (n : Int) : Int := PENCILLINE_COLOR1_ENABLED + (n - 1) * 3

/-- The macro `COLOR_PARAM(n)`. -/
def COLOR_PARAM (n : Int) : Int := PENCILLINE_COLOR1 + (n - 1) * 3

/-- The macro `COLOR_TOLERANCE_PARAM(n)`. -/
def COLOR_TOLERANCE_PARAM (n : Int) : Int := PENCILLINE_COLOR1_TOLERANCE + (n - 1) * 3

/-! ## The prepare step `PreRender` (`PencilLine.cpp`, lines 442-544) -/

/-- Host constant `PF_Err_OUT_OF_MEMORY`. -/
def PF_Err_OUT_OF_MEMORY : PF_Err := 4

/-- The members of the union `PF_ParamDef.u` that `PreRender` reads:
`u.bd.value`, `u.cd.value`, `u.fs_d.value`, `u.sd.value` and `u.pd.value`.
Each parameter is read through the member of its own kind only, so the overlap
of the members in memory is not modelled.  The checkbox value `u.bd.value` is an
`A_long`. -/
structure PF_ParamDef (D : Type) where
  bd_value : Int
  cd_value : PF_Pixel
  fs_d_value : D
  sd_value : Int
  pd_value : Int

/-- The result of `AEFX_CLR_STRUCT(def)`: every byte zero. -/
def PF_ParamDef.clear {D : Type} [Zero D] : PF_ParamDef D :=
  { bd_value := 0, cd_value := { alpha := 0, red := 0, green := 0, blue := 0 },
    fs_d_value := 0, sd_value := 0, pd_value := 0 }

/-- The result of `memset(info, 0, sizeof(PencilLineInfo))`. -/
def PencilLineInfo.zeroed {D : Type} [Zero D] : PencilLineInfo D :=
  { colorCount := 0,
    colors := fun _ =>
      { enabled := 0, color := { alpha := 0, red := 0, green := 0, blue := 0 },
        tolerance := 0, toleranceSq := 0 },
    lineWidth := 0, lineDensity := 0, textureStrength := 0, outputMode := 0 }

/-- What the host answers to `PreRender`: whether `host_new_handle` returns a
handle, the error code and the parameter written by a checkout of each index, and
the error code of `checkout_layer`. -/
structure PreRenderHost (D : Type) where
  host_new_handle : Bool
  checkout_param : Int → PF_Err × PF_ParamDef D
  checkout_layer : PF_Err

/-- The variables of `PreRender` that change while it runs: `err`, `*info`, and
a record of the calls made to the host (the indices handed to
`PF_CHECKOUT_PARAM`, in order, and whether `checkout_layer` was called). -/
structure PreRenderState (D : Type) where
  err : PF_Err
  info : PencilLineInfo D
  checkouts : List Int
  layerRequested : Bool

/-- The statement `ERR(PF_CHECKOUT_PARAM(in_data, index, ..., &param))`.  The host
macro `ERR(FUNC)` is `do { if (!err) { err = (FUNC); } } while (0)`: the call is made
only while `err` is still `PF_Err_NONE`. -/
def PreRender.checkout {D : Type} (host : PreRenderHost D) (st : PreRenderState D)
    (index : Int) (param : PF_ParamDef D) : PreRenderState D × PF_ParamDef D :=
  if st.err = PF_Err_NONE then
    ({ st with err := (host.checkout_param index).1, checkouts := st.checkouts ++ [index] },
      (host.checkout_param index).2)
  else (st, param)

/-- One iteration of the loop `for (A_long i = 0; i < MAX_COLORS; ++i)` of
`PreRender`. -/
def PreRender.body {F D : Type} [Zero D] (cx : CXCommon F D) (host : PreRenderHost D)
    (i : Fin MAX_COLORS) (st : PreRenderState D) : PreRenderState D :=
  let colorNum : Int := (i : Int) + 1
  let r1 := PreRender.checkout host st (COLOR_ENABLED_PARAM colorNum) PF_ParamDef.clear
  let r2 := PreRender.checkout host r1.1 (COLOR_PARAM colorNum) PF_ParamDef.clear
  let r3 := PreRender.checkout host r2.1 (COLOR_TOLERANCE_PARAM colorNum) PF_ParamDef.clear
  let enabledParam := r1.2
  let colorParam := r2.2
  let toleranceParam := r3.2
  if r3.1.err = PF_Err_NONE then
    let entry : ColorEntry D :=
      { r3.1.info.colors i with
        enabled := toPF_Boolean enabledParam.bd_value,
        color := colorParam.cd_value,
        tolerance := toleranceParam.fs_d_value }
    let entry : ColorEntry D :=
      { entry with toleranceSq := cx.CX_ToleranceToDistSq entry.tolerance }
    { r3.1 with info := { r3.1.info with colors := Function.update r3.1.info.colors i entry } }
  else r3.1

/-- The state after the first `n` iterations of the colour loop of `PreRender`,
started in `init`. -/
def PreRender.colorLoop {F D : Type} [Zero D] (cx : CXCommon F D) (host : PreRenderHost D)
    (init : PreRenderState D) : Nat → PreRenderState D
  | 0 => init
  | n + 1 =>
    if h : n < MAX_COLORS then
      PreRender.body cx host ⟨n, h⟩ (PreRender.colorLoop cx host init n)
    else PreRender.colorLoop cx host init n

/-- The state of `PreRender` when it enters the colour loop: `err` is
`PF_Err_NONE`, `*info` has been cleared by `memset` and its `colorCount` set to
`MAX_COLORS`, and no checkout has been made. -/
def PreRender.init {D : Type} [Zero D] : PreRenderState D :=
  { err := PF_Err_NONE,
    info := { (PencilLineInfo.zeroed : PencilLineInfo D) with colorCount := (MAX_COLORS : Int) },
    checkouts := [], layerRequested := false }

/-- What `PreRender` leaves behind: the returned error code, the contents of the
handle it allocated (`none` when no handle was allocated), whether
`extra->output->pre_render_data` was set to that handle, and the record of the
host calls.  The result rectangles are not part of the model. -/
structure PreRenderResult (D : Type) where
  err : PF_Err
  handle : Option (PencilLineInfo D)
  pre_render_data : Bool
  checkouts : List Int
  layerRequested : Bool

/-- The function `PreRender`. -/
def PreRender {F D : Type} [Zero D] (cx : CXCommon F D) (host : PreRenderHost D) :
    PreRenderResult D :=
  if host.host_new_handle = false then
    { err := PF_Err_OUT_OF_MEMORY, handle := none, pre_render_data := false,
      checkouts := [], layerRequested := false }
  else
    let st := PreRender.colorLoop cx host PreRender.init MAX_COLORS
    let r1 := PreRender.checkout host st PENCILLINE_LINE_WIDTH PF_ParamDef.clear
    let r2 := PreRender.checkout host r1.1 PENCILLINE_LINE_DENSITY PF_ParamDef.clear
    let r3 := PreRender.checkout host r2.1 PENCILLINE_TEXTURE_STRENGTH PF_ParamDef.clear
    let r4 := PreRender.checkout host r3.1 PENCILLINE_OUTPUT_MODE PF_ParamDef.clear
    let lineWidthParam := r1.2
    let lineDensityParam := r2.2
    let textureStrengthParam := r3.2
    let outputModeParam := r4.2
    let st :=
      if r4.1.err = PF_Err_NONE then
        { r4.1 with info :=
          { r4.1.info with
            lineWidth := lineWidthParam.sd_value,
            lineDensity := lineDensityParam.fs_d_value,
            textureStrength := textureStrengthParam.fs_d_value,
            outputMode := outputModeParam.pd_value } }
      else r4.1
    let st :=
      if st.err = PF_Err_NONE then
        { st with err := host.checkout_layer, layerRequested := true }
      else st
    { err := st.err, handle := some st.info, pre_render_data := true,
      checkouts := st.checkouts, layerRequested := st.layerRequested }

/-! ## Bit-depth dispatch in `SmartRender` (`PencilLine.cpp`, lines 546-641) -/

/-- Host constant `PF_Err_BAD_CALLBACK_PARAM`. -/
def PF_Err_BAD_CALLBACK_PARAM : PF_Err := 516

/-- The values of the host's pixel-format tags named in `SmartRender`; the host
header that fixes them is not part of the sources. -/
structure PixelFormatTags where
  PF_PixelFormat_ARGB32 : Int
  PF_PixelFormat_ARGB64 : Int
  PF_PixelFormat_ARGB128 : Int
  PF_PixelFormat_INVALID : Int

/-- The per-pixel function handed to the host's `iterate`. -/
inductive PixelFn where
  | ProcessPencilLine8
  | ProcessPencilLine16
  | ProcessPencilLineFloat
  deriving DecidableEq, Repr

/-- The `switch (format)` of `SmartRender`: which per-pixel function the case
taken hands to `iterate`. -/
def SmartRender.dispatch (tags : PixelFormatTags) (format : Int) : PixelFn :=
  if format = tags.PF_PixelFormat_ARGB128 then PixelFn.ProcessPencilLineFloat
  else if format = tags.PF_PixelFormat_ARGB64 then PixelFn.ProcessPencilLine16
  else PixelFn.ProcessPencilLine8

/-- What the host answers to `SmartRender`: whether `host_lock_handle` returns a
non-null `info`; error code and whether the world pointer is non-null after
`checkout_layer_pixels` and after `checkout_output`; error code and the value of
`format` after `PF_GetPixelFormat` (the variable starts as
`PF_PixelFormat_INVALID`); the error code of `iterate` for the function it is
given; the error code of `checkin_layer_pixels`. -/
structure SmartRenderHost where
  infoLocked : Bool
  checkout_layer_pixels : PF_Err × Bool
  checkout_output : PF_Err × Bool
  PF_GetPixelFormat : PF_Err × Int
  iterate : PixelFn → PF_Err
  checkin_layer_pixels : PF_Err

/-- The function `SmartRender`: the returned error code and the per-pixel
function handed to `iterate` (`none` when `iterate` is not called). -/
def SmartRender (tags : PixelFormatTags) (host : SmartRenderHost) :
    PF_Err × Option PixelFn :=
  if host.infoLocked = false then (PF_Err_BAD_CALLBACK_PARAM, none)
  else
    let err : PF_Err := host.checkout_layer_pixels.1
    let input_worldP := host.checkout_layer_pixels.2
    let r : PF_Err × Option PixelFn :=
      if err = PF_Err_NONE ∧ input_worldP = true then
        let err : PF_Err := host.checkout_output.1
        let output_worldP := host.checkout_output.2
        if err = PF_Err_NONE ∧ output_worldP = true then
          let err : PF_Err := host.PF_GetPixelFormat.1
          let format := host.PF_GetPixelFormat.2
          if err = PF_Err_NONE then
            let f := SmartRender.dispatch tags format
            (host.iterate f, some f)
          else (err, none)
        else (err, none)
      else (err, none)
    let err := if r.1 = PF_Err_NONE then host.checkin_layer_pixels else r.1
    (err, r.2)

/-! ## `UpdateParameterUI` (`PencilLine.cpp`, lines 401-440) -/

/-- What `UpdateParameterUI` reads and writes of a `PF_ParamDef`: the checkbox
value `u.bd.value` and the word `ui_flags`, the latter split into its bit
`PF_PUI_DISABLED` and its other bits.  `ui_flags &= ~PF_PUI_DISABLED` clears the
bit and `ui_flags |= PF_PUI_DISABLED` sets it; the other bits are kept. -/
structure UIParamDef where
  bd_value : Int
  uiDisabled : Bool
  uiOtherFlags : Int
  deriving DecidableEq, Repr

/-- The state of `UpdateParameterUI` while it runs: `err`, and a record of the
subscripts at which `params[]` was read and of the calls made to
`PF_UpdateParamUI` (index and parameter handed over), both in order. -/
structure UpdateUIState where
  err : PF_Err
  reads : List Int
  updates : List (Int × UIParamDef)

/-- The statement `ERR(paramSuite->PF_UpdateParamUI(effect_ref, index, &paramCopy))`;
`suite index paramCopy` is the error code the host returns for the call. -/
def UpdateParameterUI.update (suite : Int → UIParamDef → PF_Err) (st : UpdateUIState)
    (index : Int) (paramCopy : UIParamDef) : UpdateUIState :=
  if st.err = PF_Err_NONE then
    { st with err := suite index paramCopy, updates := st.updates ++ [(index, paramCopy)] }
  else st

/-- One iteration of the loop `for (A_long i = 1; i <= MAX_COLORS; ++i)` of
`UpdateParameterUI`. -/
def UpdateParameterUI.body (suite : Int → UIParamDef → PF_Err) (params : Int → UIParamDef)
    (i : Int) (st : UpdateUIState) : UpdateUIState :=
  let enabledIdx := COLOR_ENABLED_PARAM i
  let colorIdx := COLOR_PARAM i
  let toleranceIdx := COLOR_TOLERANCE_PARAM i
  let isEnabled := toPF_Boolean (params enabledIdx).bd_value
  let st := { st with reads := st.reads ++ [enabledIdx] }
  let paramCopy := params colorIdx
  let st := { st with reads := st.reads ++ [colorIdx] }
  let paramCopy :=
    if isEnabled ≠ 0 then { paramCopy with uiDisabled := false }
    else { paramCopy with uiDisabled := true }
  let st := UpdateParameterUI.update suite st colorIdx paramCopy
  let paramCopy := params toleranceIdx
  let st := { st with reads := st.reads ++ [toleranceIdx] }
  let paramCopy :=
    if isEnabled ≠ 0 then { paramCopy with uiDisabled := false }
    else { paramCopy with uiDisabled := true }
  UpdateParameterUI.update suite st toleranceIdx paramCopy

/-- The state after the first `n` iterations of the loop of `UpdateParameterUI`;
the iteration number `k` (from 0) runs with `i = k + 1`. -/
def UpdateParameterUI.loop (suite : Int → UIParamDef → PF_Err) (params : Int → UIParamDef) :
    Nat → UpdateUIState
  | 0 => { err := PF_Err_NONE, reads := [], updates := [] }
  | n + 1 =>
    UpdateParameterUI.body suite params ((n : Int) + 1) (UpdateParameterUI.loop suite params n)

/-- The function `UpdateParameterUI`: the final state, whose `err` is returned. -/
def UpdateParameterUI (suite : Int → UIParamDef → PF_Err) (params : Int → UIParamDef) :
    UpdateUIState :=
  UpdateParameterUI.loop suite params MAX_COLORS

/-! ## Rectangle union (`CXCommon.h`, lines 70-76) -/

/-- The host's `PF_LRect`: four `A_long` coordinates. -/
structure PF_LRect where
  left : Int
  top : Int
  right : Int
  bottom : Int
  deriving DecidableEq, Repr

/-- The function `CX_UnionLRect`: the new contents of `*dst` (`*src` is `const`). -/
def CX_UnionLRect (src dst : PF_LRect) : PF_LRect :=
  let dst := if src.left < dst.left then { dst with left := src.left } else dst
  let dst := if src.top < dst.top then { dst with top := src.top } else dst
  let dst := if src.right > dst.right then { dst with right := src.right } else dst
  let dst := if src.bottom > dst.bottom then { dst with bottom := src.bottom } else dst
  dst

/-! ## The policy table in the words of the specification -/

/-- The policy table of the specification, for the three named modes and with the
identity as texture transform: `LINE_ONLY` keeps the source exactly when it
matches, `BG_ONLY` exactly when it does not, `FULL` always; the other branch is
transparent black. -/
def PolicyTable {α : Type} (outputMode : Int) (isMatch : Bool)
    (source transparentBlack output : α) : Prop :=
  (outputMode = OUTPUT_MODE_LINE_ONLY →
    output = if isMatch then source else transparentBlack) ∧
  (outputMode = OUTPUT_MODE_BG_ONLY →
    output = if isMatch then transparentBlack else source) ∧
  (outputMode = OUTPUT_MODE_FULL → output = source)

/-! ## What the prepare step is to produce, in the words of the specification -/

/-- The entry that the parameters of colour `i + 1` describe: `enabled`, `color`
and `tolerance` are the values checked out at `COLOR_ENABLED_PARAM(i+1)`,
`COLOR_PARAM(i+1)` and `COLOR_TOLERANCE_PARAM(i+1)`, the checkbox value converted
to the type `PF_Boolean` of the field, and `toleranceSq` is `CX_ToleranceToDistSq`
of that tolerance. -/
def entryOfParams {F D : Type} (cx : CXCommon F D) (host : PreRenderHost D)
    (i : Fin MAX_COLORS) : ColorEntry D :=
  { enabled :=
      toPF_Boolean (host.checkout_param (COLOR_ENABLED_PARAM ((i : Int) + 1))).2.bd_value,
    color := (host.checkout_param (COLOR_PARAM ((i : Int) + 1))).2.cd_value,
    tolerance := (host.checkout_param (COLOR_TOLERANCE_PARAM ((i : Int) + 1))).2.fs_d_value,
    toleranceSq := cx.CX_ToleranceToDistSq
      (host.checkout_param (COLOR_TOLERANCE_PARAM ((i : Int) + 1))).2.fs_d_value }

/-- The all-zero entry; its `enabled` flag is zero. -/
def zeroEntry {D : Type} [Zero D] : ColorEntry D :=
  { enabled := 0, color := { alpha := 0, red := 0, green := 0, blue := 0 },
    tolerance := 0, toleranceSq := 0 }

/-- The error code with which the checkouts of colour `i + 1` end when they are
started without error: that of the first of the three that fails, and
`PF_Err_NONE` when none does. -/
def slotErr {D : Type} (host : PreRenderHost D) (i : Fin MAX_COLORS) : PF_Err :=
  if (host.checkout_param (COLOR_ENABLED_PARAM ((i : Int) + 1))).1 ≠ PF_Err_NONE then
    (host.checkout_param (COLOR_ENABLED_PARAM ((i : Int) + 1))).1
  else if (host.checkout_param (COLOR_PARAM ((i : Int) + 1))).1 ≠ PF_Err_NONE then
    (host.checkout_param (COLOR_PARAM ((i : Int) + 1))).1
  else (host.checkout_param (COLOR_TOLERANCE_PARAM ((i : Int) + 1))).1

/-! ## Concrete data at which the theorems are evaluated -/

/-- A concrete instance of the absent helpers: exact match on red, green and blue,
and the tolerance taken as its own squared distance. -/
def exampleCX : CXCommon Int Int :=
  { CX_IsTargetColor8 := fun p r g b _ => decide (p.red = r ∧ p.green = g ∧ p.blue = b),
    CX_IsTargetColor16 := fun p r g b _ => decide (p.red = r ∧ p.green = g ∧ p.blue = b),
    CX_IsTargetColorFloat := fun p r g b _ =>
      decide (p.red = (r : Int) ∧ p.green = (g : Int) ∧ p.blue = (b : Int)),
    CX_ToleranceToDistSq := fun t => t }

/-- A colour entry: enabled, opaque colour (10, 20, 30), tolerance 0. -/
def exampleEntry : ColorEntry Int :=
  { enabled := 1, color := { alpha := 255, red := 10, green := 20, blue := 30 },
    tolerance := 0, toleranceSq := 0 }

/-- A prepared info: slot 0 holds `exampleEntry`, the other slots are zero;
mode `LINE_ONLY`. -/
def exampleInfo : PencilLineInfo Int :=
  { colorCount := 16,
    colors := fun i => if i = 0 then exampleEntry else PencilLineInfo.zeroed.colors i,
    lineWidth := 2, lineDensity := 50, textureStrength := 50,
    outputMode := OUTPUT_MODE_LINE_ONLY }

/-- The entries of `exampleInfo` in another order: `exampleEntry` sits in slot 5. -/
def exampleInfoPermuted : PencilLineInfo Int :=
  { exampleInfo with
    colors := fun i => if i = 5 then exampleEntry else PencilLineInfo.zeroed.colors i }

/-- The info `exampleInfo` with other values in the disabled slot 3. -/
def exampleInfoDisabledDiffer : PencilLineInfo Int :=
  { exampleInfo with
    colors := fun i =>
      if i = 0 then exampleEntry
      else if i = 3 then
        { enabled := 0, color := { alpha := 1, red := 10, green := 20, blue := 31 },
          tolerance := 77, toleranceSq := 999 }
      else PencilLineInfo.zeroed.colors i }

/-- The info `exampleInfo` with other texture parameters. -/
def exampleInfoTexture : PencilLineInfo Int :=
  { exampleInfo with lineWidth := 7, lineDensity := 1, textureStrength := 99 }

/-- A host all of whose calls succeed; the parameter checked out at an index
carries values derived from the index. -/
def exampleHost : PreRenderHost Int :=
  { host_new_handle := true,
    checkout_param := fun index =>
      (PF_Err_NONE,
        { bd_value := index % 2,
          cd_value := { alpha := 255, red := index.toNat, green := 7, blue := 8 },
          fs_d_value := index + 1, sd_value := 2, pd_value := OUTPUT_MODE_LINE_ONLY }),
    checkout_layer := PF_Err_NONE }

/-- The host `exampleHost`, except that the checkout of parameter 9 (the colour
of colour 3, read for slot 2) fails with code 515 and writes nothing. -/
def exampleHostFailing : PreRenderHost Int :=
  { exampleHost with
    checkout_param := fun index =>
      if index = 9 then (515, PF_ParamDef.clear) else exampleHost.checkout_param index }

/-- Pixel-format tags as four-character codes: argb, ae16, ae32, badf. -/
def exampleTags : PixelFormatTags :=
  { PF_PixelFormat_ARGB32 := 1634887522,
    PF_PixelFormat_ARGB64 := 1634021686,
    PF_PixelFormat_ARGB128 := 1634022194,
    PF_PixelFormat_INVALID := 1650549862 }

/-- A render host all of whose calls succeed, with a 16-bit input buffer. -/
def exampleRenderHost : SmartRenderHost :=
  { infoLocked := true,
    checkout_layer_pixels := (PF_Err_NONE, true),
    checkout_output := (PF_Err_NONE, true),
    PF_GetPixelFormat := (PF_Err_NONE, 1634021686),
    iterate := fun _ => PF_Err_NONE,
    checkin_layer_pixels := PF_Err_NONE }


/-- The host `exampleHost`, except that it has no memory for the handle. -/
def exampleHostNoMemory : PreRenderHost Int :=
  { exampleHost with host_new_handle := false }


/-- Parameters for `UpdateParameterUI`: the checkboxes of the colours with an odd
number are ticked (their index leaves 2 modulo 6), and no parameter is disabled
yet. -/
def exampleUIParams : Int → UIParamDef :=
  fun index => { bd_value := if index % 6 = 2 then 1 else 0, uiDisabled := false,
                 uiOtherFlags := index }


/-- An 8-bit pixel of the colour of `exampleEntry`. -/
def examplePixel8 : PF_Pixel8 := { alpha := 200, red := 10, green := 20, blue := 30 }

/-- A 16-bit pixel. -/
def examplePixel16 : PF_Pixel16 := { alpha := 32768, red := 10, green := 20, blue := 31 }

/-- A float pixel (channels over `Int`). -/
def examplePixelFloat : PF_PixelFloat Int := { alpha := 1, red := 10, green := 20, blue := 30 }

/-! ## The classifier as a disjunction over the entries -/

/-- Closed form of the loop of `IsTargetColor8` while it stays inside the array. -/
theorem IsTargetColor8_loop_eq {F D : Type} (cx : CXCommon F D) (pixel : PF_Pixel8)
    (info : PencilLineInfo D) (n : Nat) : ∀ i : Nat, i + n ≤ MAX_COLORS →
    IsTargetColor8.loop cx pixel info n i =
      some (decide (∃ j : Fin MAX_COLORS, i ≤ j.val ∧ j.val < i + n ∧
        (info.colors j).enabled ≠ 0 ∧
        cx.CX_IsTargetColor8 pixel (info.colors j).color.red (info.colors j).color.green
          (info.colors j).color.blue (info.colors j).toleranceSq = true)) := by
  induction n with
  | zero =>
    intro i _
    simp only [IsTargetColor8.loop, Option.some.injEq]
    symm
    rw [decide_eq_false_iff_not]
    rintro ⟨j, h1, h2, _⟩
    omega
  | succ n ih =>
    intro i hi
    have hlt : i < MAX_COLORS := by omega
    rw [IsTargetColor8.loop, dif_pos hlt]
    have hrec := ih (i + 1) (by omega)
    by_cases hen : (info.colors ⟨i, hlt⟩).enabled = 0
    · simp only [hen, if_true]
      rw [hrec]
      congr 1
      rw [decide_eq_decide]
      constructor
      · rintro ⟨j, h1, h2, h3⟩
        exact ⟨j, by omega, by omega, h3⟩
      · rintro ⟨j, h1, h2, h3, h4⟩
        have hne : j.val ≠ i := by
          intro hji
          have : j = ⟨i, hlt⟩ := Fin.ext hji
          rw [this] at h3
          exact h3 hen
        exact ⟨j, by omega, by omega, h3, h4⟩
    · simp only [hen, if_false]
      by_cases ht : cx.CX_IsTargetColor8 pixel (info.colors ⟨i, hlt⟩).color.red
          (info.colors ⟨i, hlt⟩).color.green (info.colors ⟨i, hlt⟩).color.blue
          (info.colors ⟨i, hlt⟩).toleranceSq = true
      · simp only [ht, if_true]
        congr 1
        symm
        rw [decide_eq_true_iff]
        exact ⟨⟨i, hlt⟩, le_refl _, by simp, hen, ht⟩
      · simp only [ht, Bool.false_eq_true, if_false]
        rw [hrec]
        congr 1
        rw [decide_eq_decide]
        constructor
        · rintro ⟨j, h1, h2, h3⟩
          exact ⟨j, by omega, by omega, h3⟩
        · rintro ⟨j, h1, h2, h3, h4⟩
          have hne : j.val ≠ i := by
            intro hji
            have : j = ⟨i, hlt⟩ := Fin.ext hji
            rw [this] at h4
            exact ht h4
          exact ⟨j, by omega, by omega, h3, h4⟩

/-- The loop of `IsTargetColor8` reads the flags, and of the enabled entries the
colour and `toleranceSq`, and nothing else of `info`. -/
theorem IsTargetColor8_loop_congr {F D : Type} (cx : CXCommon F D) (pixel : PF_Pixel8)
    (S S' : PencilLineInfo D)
    (hen : ∀ j, (S.colors j).enabled = (S'.colors j).enabled)
    (hc : ∀ j, (S.colors j).enabled ≠ 0 →
      (S.colors j).color = (S'.colors j).color ∧
      (S.colors j).toleranceSq = (S'.colors j).toleranceSq) (n : Nat) :
    ∀ i : Nat, IsTargetColor8.loop cx pixel S n i = IsTargetColor8.loop cx pixel S' n i := by
  induction n with
  | zero => intro i; rfl
  | succ n ih =>
    intro i
    rw [IsTargetColor8.loop, IsTargetColor8.loop]
    by_cases hlt : i < MAX_COLORS
    · rw [dif_pos hlt, dif_pos hlt]
      by_cases h0 : (S.colors ⟨i, hlt⟩).enabled = 0
      · have h0' : (S'.colors ⟨i, hlt⟩).enabled = 0 := by rw [← hen]; exact h0
        simp only [h0, h0', if_true]
        exact ih (i + 1)
      · have h0' : ¬ (S'.colors ⟨i, hlt⟩).enabled = 0 := by rw [← hen]; exact h0
        obtain ⟨e1, e2⟩ := hc ⟨i, hlt⟩ h0
        simp only [h0, h0', if_false, e1, e2, ih (i + 1)]
    · rw [dif_neg hlt, dif_neg hlt]

/-- Closed form of `IsTargetColor8` for `colorCount ≤ MAX_COLORS`. -/
theorem IsTargetColor8_eq {F D : Type} (cx : CXCommon F D) (pixel : PF_Pixel8)
    (info : PencilLineInfo D) (h : info.colorCount ≤ MAX_COLORS) :
    IsTargetColor8 cx pixel info =
      some (decide (∃ j : Fin MAX_COLORS, (j.val : Int) < info.colorCount ∧
        (info.colors j).enabled ≠ 0 ∧
        cx.CX_IsTargetColor8 pixel (info.colors j).color.red (info.colors j).color.green
          (info.colors j).color.blue (info.colors j).toleranceSq = true)) := by
  have hn : 0 + info.colorCount.toNat ≤ MAX_COLORS := by
    have : (MAX_COLORS : Int) = 16 := rfl
    omega
  rw [IsTargetColor8, IsTargetColor8_loop_eq cx pixel info _ 0 hn]
  congr 1
  rw [decide_eq_decide]
  constructor
  · rintro ⟨j, _, h2, h3⟩
    exact ⟨j, by omega, h3⟩
  · rintro ⟨j, h1, h3⟩
    exact ⟨j, Nat.zero_le _, by omega, h3⟩

/-- Closed form of the loop of `IsTargetColor16` while it stays inside the array. -/
theorem IsTargetColor16_loop_eq {F D : Type} (cx : CXCommon F D) (pixel : PF_Pixel16)
    (info : PencilLineInfo D) (n : Nat) : ∀ i : Nat, i + n ≤ MAX_COLORS →
    IsTargetColor16.loop cx pixel info n i =
      some (decide (∃ j : Fin MAX_COLORS, i ≤ j.val ∧ j.val < i + n ∧
        (info.colors j).enabled ≠ 0 ∧
        cx.CX_IsTargetColor16 pixel (info.colors j).color.red (info.colors j).color.green
          (info.colors j).color.blue (info.colors j).toleranceSq = true)) := by
  induction n with
  | zero =>
    intro i _
    simp only [IsTargetColor16.loop, Option.some.injEq]
    symm
    rw [decide_eq_false_iff_not]
    rintro ⟨j, h1, h2, _⟩
    omega
  | succ n ih =>
    intro i hi
    have hlt : i < MAX_COLORS := by omega
    rw [IsTargetColor16.loop, dif_pos hlt]
    have hrec := ih (i + 1) (by omega)
    by_cases hen : (info.colors ⟨i, hlt⟩).enabled = 0
    · simp only [hen, if_true]
      rw [hrec]
      congr 1
      rw [decide_eq_decide]
      constructor
      · rintro ⟨j, h1, h2, h3⟩
        exact ⟨j, by omega, by omega, h3⟩
      · rintro ⟨j, h1, h2, h3, h4⟩
        have hne : j.val ≠ i := by
          intro hji
          have : j = ⟨i, hlt⟩ := Fin.ext hji
          rw [this] at h3
          exact h3 hen
        exact ⟨j, by omega, by omega, h3, h4⟩
    · simp only [hen, if_false]
      by_cases ht : cx.CX_IsTargetColor16 pixel (info.colors ⟨i, hlt⟩).color.red
          (info.colors ⟨i, hlt⟩).color.green (info.colors ⟨i, hlt⟩).color.blue
          (info.colors ⟨i, hlt⟩).toleranceSq = true
      · simp only [ht, if_true]
        congr 1
        symm
        rw [decide_eq_true_iff]
        exact ⟨⟨i, hlt⟩, le_refl _, by simp, hen, ht⟩
      · simp only [ht, Bool.false_eq_true, if_false]
        rw [hrec]
        congr 1
        rw [decide_eq_decide]
        constructor
        · rintro ⟨j, h1, h2, h3⟩
          exact ⟨j, by omega, by omega, h3⟩
        · rintro ⟨j, h1, h2, h3, h4⟩
          have hne : j.val ≠ i := by
            intro hji
            have : j = ⟨i, hlt⟩ := Fin.ext hji
            rw [this] at h4
            exact ht h4
          exact ⟨j, by omega, by omega, h3, h4⟩

/-- The loop of `IsTargetColor16` reads the flags, and of the enabled entries the
colour and `toleranceSq`, and nothing else of `info`. -/
theorem IsTargetColor16_loop_congr {F D : Type} (cx : CXCommon F D) (pixel : PF_Pixel16)
    (S S' : PencilLineInfo D)
    (hen : ∀ j, (S.colors j).enabled = (S'.colors j).enabled)
    (hc : ∀ j, (S.colors j).enabled ≠ 0 →
      (S.colors j).color = (S'.colors j).color ∧
      (S.colors j).toleranceSq = (S'.colors j).toleranceSq) (n : Nat) :
    ∀ i : Nat, IsTargetColor16.loop cx pixel S n i = IsTargetColor16.loop cx pixel S' n i := by
  induction n with
  | zero => intro i; rfl
  | succ n ih =>
    intro i
    rw [IsTargetColor16.loop, IsTargetColor16.loop]
    by_cases hlt : i < MAX_COLORS
    · rw [dif_pos hlt, dif_pos hlt]
      by_cases h0 : (S.colors ⟨i, hlt⟩).enabled = 0
      · have h0' : (S'.colors ⟨i, hlt⟩).enabled = 0 := by rw [← hen]; exact h0
        simp only [h0, h0', if_true]
        exact ih (i + 1)
      · have h0' : ¬ (S'.colors ⟨i, hlt⟩).enabled = 0 := by rw [← hen]; exact h0
        obtain ⟨e1, e2⟩ := hc ⟨i, hlt⟩ h0
        simp only [h0, h0', if_false, e1, e2, ih (i + 1)]
    · rw [dif_neg hlt, dif_neg hlt]

/-- Closed form of `IsTargetColor16` for `colorCount ≤ MAX_COLORS`. -/
theorem IsTargetColor16_eq {F D : Type} (cx : CXCommon F D) (pixel : PF_Pixel16)
    (info : PencilLineInfo D) (h : info.colorCount ≤ MAX_COLORS) :
    IsTargetColor16 cx pixel info =
      some (decide (∃ j : Fin MAX_COLORS, (j.val : Int) < info.colorCount ∧
        (info.colors j).enabled ≠ 0 ∧
        cx.CX_IsTargetColor16 pixel (info.colors j).color.red (info.colors j).color.green
          (info.colors j).color.blue (info.colors j).toleranceSq = true)) := by
  have hn : 0 + info.colorCount.toNat ≤ MAX_COLORS := by
    have : (MAX_COLORS : Int) = 16 := rfl
    omega
  rw [IsTargetColor16, IsTargetColor16_loop_eq cx pixel info _ 0 hn]
  congr 1
  rw [decide_eq_decide]
  constructor
  · rintro ⟨j, _, h2, h3⟩
    exact ⟨j, by omega, h3⟩
  · rintro ⟨j, h1, h3⟩
    exact ⟨j, Nat.zero_le _, by omega, h3⟩

/-- Closed form of the loop of `IsTargetColorFloat` while it stays inside the array. -/
theorem IsTargetColorFloat_loop_eq {F D : Type} (cx : CXCommon F D)
    (pixel : PF_PixelFloat F)
    (info : PencilLineInfo D) (n : Nat) : ∀ i : Nat, i + n ≤ MAX_COLORS →
    IsTargetColorFloat.loop cx pixel info n i =
      some (decide (∃ j : Fin MAX_COLORS, i ≤ j.val ∧ j.val < i + n ∧
        (info.colors j).enabled ≠ 0 ∧
        cx.CX_IsTargetColorFloat pixel (info.colors j).color.red (info.colors j).color.green
          (info.colors j).color.blue (info.colors j).toleranceSq = true)) := by
  induction n with
  | zero =>
    intro i _
    simp only [IsTargetColorFloat.loop, Option.some.injEq]
    symm
    rw [decide_eq_false_iff_not]
    rintro ⟨j, h1, h2, _⟩
    omega
  | succ n ih =>
    intro i hi
    have hlt : i < MAX_COLORS := by omega
    rw [IsTargetColorFloat.loop, dif_pos hlt]
    have hrec := ih (i + 1) (by omega)
    by_cases hen : (info.colors ⟨i, hlt⟩).enabled = 0
    · simp only [hen, if_true]
      rw [hrec]
      congr 1
      rw [decide_eq_decide]
      constructor
      · rintro ⟨j, h1, h2, h3⟩
        exact ⟨j, by omega, by omega, h3⟩
      · rintro ⟨j, h1, h2, h3, h4⟩
        have hne : j.val ≠ i := by
          intro hji
          have : j = ⟨i, hlt⟩ := Fin.ext hji
          rw [this] at h3
          exact h3 hen
        exact ⟨j, by omega, by omega, h3, h4⟩
    · simp only [hen, if_false]
      by_cases ht : cx.CX_IsTargetColorFloat pixel (info.colors ⟨i, hlt⟩).color.red
          (info.colors ⟨i, hlt⟩).color.green (info.colors ⟨i, hlt⟩).color.blue
          (info.colors ⟨i, hlt⟩).toleranceSq = true
      · simp only [ht, if_true]
        congr 1
        symm
        rw [decide_eq_true_iff]
        exact ⟨⟨i, hlt⟩, le_refl _, by simp, hen, ht⟩
      · simp only [ht, Bool.false_eq_true, if_false]
        rw [hrec]
        congr 1
        rw [decide_eq_decide]
        constructor
        · rintro ⟨j, h1, h2, h3⟩
          exact ⟨j, by omega, by omega, h3⟩
        · rintro ⟨j, h1, h2, h3, h4⟩
          have hne : j.val ≠ i := by
            intro hji
            have : j = ⟨i, hlt⟩ := Fin.ext hji
            rw [this] at h4
            exact ht h4
          exact ⟨j, by omega, by omega, h3, h4⟩

/-- The loop of `IsTargetColorFloat` reads the flags, and of the enabled entries the
colour and `toleranceSq`, and nothing else of `info`. -/
theorem IsTargetColorFloat_loop_congr {F D : Type} (cx : CXCommon F D)
    (pixel : PF_PixelFloat F)
    (S S' : PencilLineInfo D)
    (hen : ∀ j, (S.colors j).enabled = (S'.colors j).enabled)
    (hc : ∀ j, (S.colors j).enabled ≠ 0 →
      (S.colors j).color = (S'.colors j).color ∧
      (S.colors j).toleranceSq = (S'.colors j).toleranceSq) (n : Nat) :
    ∀ i : Nat, IsTargetColorFloat.loop cx pixel S n i = IsTargetColorFloat.loop cx pixel S' n i := by
  induction n with
  | zero => intro i; rfl
  | succ n ih =>
    intro i
    rw [IsTargetColorFloat.loop, IsTargetColorFloat.loop]
    by_cases hlt : i < MAX_COLORS
    · rw [dif_pos hlt, dif_pos hlt]
      by_cases h0 : (S.colors ⟨i, hlt⟩).enabled = 0
      · have h0' : (S'.colors ⟨i, hlt⟩).enabled = 0 := by rw [← hen]; exact h0
        simp only [h0, h0', if_true]
        exact ih (i + 1)
      · have h0' : ¬ (S'.colors ⟨i, hlt⟩).enabled = 0 := by rw [← hen]; exact h0
        obtain ⟨e1, e2⟩ := hc ⟨i, hlt⟩ h0
        simp only [h0, h0', if_false, e1, e2, ih (i + 1)]
    · rw [dif_neg hlt, dif_neg hlt]

/-- Closed form of `IsTargetColorFloat` for `colorCount ≤ MAX_COLORS`. -/
theorem IsTargetColorFloat_eq {F D : Type} (cx : CXCommon F D) (pixel : PF_PixelFloat F)
    (info : PencilLineInfo D) (h : info.colorCount ≤ MAX_COLORS) :
    IsTargetColorFloat cx pixel info =
      some (decide (∃ j : Fin MAX_COLORS, (j.val : Int) < info.colorCount ∧
        (info.colors j).enabled ≠ 0 ∧
        cx.CX_IsTargetColorFloat pixel (info.colors j).color.red (info.colors j).color.green
          (info.colors j).color.blue (info.colors j).toleranceSq = true)) := by
  have hn : 0 + info.colorCount.toNat ≤ MAX_COLORS := by
    have : (MAX_COLORS : Int) = 16 := rfl
    omega
  rw [IsTargetColorFloat, IsTargetColorFloat_loop_eq cx pixel info _ 0 hn]
  congr 1
  rw [decide_eq_decide]
  constructor
  · rintro ⟨j, _, h2, h3⟩
    exact ⟨j, by omega, h3⟩
  · rintro ⟨j, h1, h3⟩
    exact ⟨j, Nat.zero_le _, by omega, h3⟩

/-! ## The compositing policy -/

/-- The output of `ProcessPencilLine8` once the verdict of the classifier is known. -/
theorem ProcessPencilLine8_of_verdict {F D : Type} (cx : CXCommon F D)
    (info : PencilLineInfo D) (x y : Int) (inP outP : PF_Pixel8) (m : Bool)
    (hm : IsTargetColor8 cx inP info = some m) :
    ProcessPencilLine8 cx info x y inP outP = some (PF_Err_NONE,
      if info.outputMode = OUTPUT_MODE_LINE_ONLY then
        (if m then inP else { alpha := 0, red := 0, green := 0, blue := 0 })
      else if info.outputMode = OUTPUT_MODE_BG_ONLY then
        (if m then { alpha := 0, red := 0, green := 0, blue := 0 } else inP)
      else inP) := by
  rw [ProcessPencilLine8, hm]
  cases m <;> simp [ApplyPencilTexture8]

/-- The output of `ProcessPencilLine16` once the verdict of the classifier is known. -/
theorem ProcessPencilLine16_of_verdict {F D : Type} (cx : CXCommon F D)
    (info : PencilLineInfo D) (x y : Int) (inP outP : PF_Pixel16) (m : Bool)
    (hm : IsTargetColor16 cx inP info = some m) :
    ProcessPencilLine16 cx info x y inP outP = some (PF_Err_NONE,
      if info.outputMode = OUTPUT_MODE_LINE_ONLY then
        (if m then inP else { alpha := 0, red := 0, green := 0, blue := 0 })
      else if info.outputMode = OUTPUT_MODE_BG_ONLY then
        (if m then { alpha := 0, red := 0, green := 0, blue := 0 } else inP)
      else inP) := by
  rw [ProcessPencilLine16, hm]
  cases m <;> simp [ApplyPencilTexture16]

/-- The output of `ProcessPencilLineFloat` once the verdict of the classifier is known. -/
theorem ProcessPencilLineFloat_of_verdict {F D : Type} [Zero F] (cx : CXCommon F D)
    (info : PencilLineInfo D) (x y : Int) (inP outP : PF_PixelFloat F) (m : Bool)
    (hm : IsTargetColorFloat cx inP info = some m) :
    ProcessPencilLineFloat cx info x y inP outP = some (PF_Err_NONE,
      if info.outputMode = OUTPUT_MODE_LINE_ONLY then
        (if m then inP else { alpha := 0, red := 0, green := 0, blue := 0 })
      else if info.outputMode = OUTPUT_MODE_BG_ONLY then
        (if m then { alpha := 0, red := 0, green := 0, blue := 0 } else inP)
      else inP) := by
  rw [ProcessPencilLineFloat, hm]
  cases m <;> simp [ApplyPencilTextureFloat]

/-- The nested conditional computed by the `switch` satisfies the policy table. -/
theorem PolicyTable_of_switch {α : Type} (mode : Int) (m : Bool) (src z : α) :
    PolicyTable mode m src z
      (if mode = OUTPUT_MODE_LINE_ONLY then (if m then src else z)
       else if mode = OUTPUT_MODE_BG_ONLY then (if m then z else src)
       else src) := by
  refine ⟨fun h => ?_, fun h => ?_, fun h => ?_⟩
  · simp [h]
  · simp [h, OUTPUT_MODE_BG_ONLY, OUTPUT_MODE_LINE_ONLY]
  · simp [h, OUTPUT_MODE_BG_ONLY, OUTPUT_MODE_LINE_ONLY, OUTPUT_MODE_FULL]

/-- The verdict of `IsTargetColor8` depends on `colorCount` and `colors` only. -/
theorem IsTargetColor8_congr {F D : Type} (cx : CXCommon F D) (pixel : PF_Pixel8)
    (S S' : PencilLineInfo D) (hcount : S.colorCount = S'.colorCount)
    (hen : ∀ j, (S.colors j).enabled = (S'.colors j).enabled)
    (hc : ∀ j, (S.colors j).enabled ≠ 0 →
      (S.colors j).color = (S'.colors j).color ∧
      (S.colors j).toleranceSq = (S'.colors j).toleranceSq) :
    IsTargetColor8 cx pixel S = IsTargetColor8 cx pixel S' := by
  rw [IsTargetColor8, IsTargetColor8, hcount]
  exact IsTargetColor8_loop_congr cx pixel S S' hen hc _ 0

/-- The output of `ProcessPencilLine8` depends on the verdict, the mode and the
input pixel only. -/
theorem ProcessPencilLine8_congr {F D : Type} (cx : CXCommon F D)
    (S S' : PencilLineInfo D) (x y x' y' : Int) (inP outP outP' : PF_Pixel8)
    (hv : IsTargetColor8 cx inP S = IsTargetColor8 cx inP S')
    (hmode : S.outputMode = S'.outputMode) :
    ProcessPencilLine8 cx S x y inP outP = ProcessPencilLine8 cx S' x' y' inP outP' := by
  cases hm : IsTargetColor8 cx inP S' with
  | none =>
    rw [hm] at hv
    rw [ProcessPencilLine8, ProcessPencilLine8, hv, hm]
  | some m =>
    rw [hm] at hv
    rw [ProcessPencilLine8_of_verdict cx S x y inP outP m hv,
      ProcessPencilLine8_of_verdict cx S' x' y' inP outP' m hm, hmode]

/-- An unrecognised mode takes the `default:` label, which is the `FULL` case. -/
theorem ProcessPencilLine8_default {F D : Type} (cx : CXCommon F D)
    (info : PencilLineInfo D) (x y : Int) (inP outP : PF_Pixel8)
    (h2 : info.outputMode ≠ OUTPUT_MODE_LINE_ONLY)
    (h3 : info.outputMode ≠ OUTPUT_MODE_BG_ONLY) :
    ProcessPencilLine8 cx info x y inP outP =
      ProcessPencilLine8 cx { info with outputMode := OUTPUT_MODE_FULL } x y inP outP := by
  have hv : IsTargetColor8 cx inP info =
      IsTargetColor8 cx inP { info with outputMode := OUTPUT_MODE_FULL } :=
    IsTargetColor8_congr cx inP _ _ rfl (fun _ => rfl) (fun _ _ => ⟨rfl, rfl⟩)
  cases hm : IsTargetColor8 cx inP info with
  | none =>
    rw [hm] at hv
    rw [ProcessPencilLine8, ProcessPencilLine8, ← hv, hm]
  | some m =>
    rw [hm] at hv
    rw [ProcessPencilLine8_of_verdict cx info x y inP outP m hm,
      ProcessPencilLine8_of_verdict cx _ x y inP outP m hv.symm]
    rw [if_neg h2, if_neg h3]
    simp [OUTPUT_MODE_FULL, OUTPUT_MODE_LINE_ONLY, OUTPUT_MODE_BG_ONLY]

/-- In `FULL` mode `ProcessPencilLine8` copies the input pixel. -/
theorem ProcessPencilLine8_full {F D : Type} (cx : CXCommon F D)
    (info : PencilLineInfo D) (x y : Int) (inP outP : PF_Pixel8)
    (hcount : info.colorCount ≤ MAX_COLORS) (hmode : info.outputMode = OUTPUT_MODE_FULL) :
    ProcessPencilLine8 cx info x y inP outP = some (PF_Err_NONE, inP) := by
  rw [ProcessPencilLine8_of_verdict cx info x y inP outP _
    (IsTargetColor8_eq cx inP info hcount)]
  simp [hmode, OUTPUT_MODE_FULL, OUTPUT_MODE_LINE_ONLY, OUTPUT_MODE_BG_ONLY]

/-- The verdict of `IsTargetColor16` depends on `colorCount` and `colors` only. -/
theorem IsTargetColor16_congr {F D : Type} (cx : CXCommon F D) (pixel : PF_Pixel16)
    (S S' : PencilLineInfo D) (hcount : S.colorCount = S'.colorCount)
    (hen : ∀ j, (S.colors j).enabled = (S'.colors j).enabled)
    (hc : ∀ j, (S.colors j).enabled ≠ 0 →
      (S.colors j).color = (S'.colors j).color ∧
      (S.colors j).toleranceSq = (S'.colors j).toleranceSq) :
    IsTargetColor16 cx pixel S = IsTargetColor16 cx pixel S' := by
  rw [IsTargetColor16, IsTargetColor16, hcount]
  exact IsTargetColor16_loop_congr cx pixel S S' hen hc _ 0

/-- The output of `ProcessPencilLine16` depends on the verdict, the mode and the
input pixel only. -/
theorem ProcessPencilLine16_congr {F D : Type} (cx : CXCommon F D)
    (S S' : PencilLineInfo D) (x y x' y' : Int) (inP outP outP' : PF_Pixel16)
    (hv : IsTargetColor16 cx inP S = IsTargetColor16 cx inP S')
    (hmode : S.outputMode = S'.outputMode) :
    ProcessPencilLine16 cx S x y inP outP = ProcessPencilLine16 cx S' x' y' inP outP' := by
  cases hm : IsTargetColor16 cx inP S' with
  | none =>
    rw [hm] at hv
    rw [ProcessPencilLine16, ProcessPencilLine16, hv, hm]
  | some m =>
    rw [hm] at hv
    rw [ProcessPencilLine16_of_verdict cx S x y inP outP m hv,
      ProcessPencilLine16_of_verdict cx S' x' y' inP outP' m hm, hmode]

/-- An unrecognised mode takes the `default:` label, which is the `FULL` case. -/
theorem ProcessPencilLine16_default {F D : Type} (cx : CXCommon F D)
    (info : PencilLineInfo D) (x y : Int) (inP outP : PF_Pixel16)
    (h2 : info.outputMode ≠ OUTPUT_MODE_LINE_ONLY)
    (h3 : info.outputMode ≠ OUTPUT_MODE_BG_ONLY) :
    ProcessPencilLine16 cx info x y inP outP =
      ProcessPencilLine16 cx { info with outputMode := OUTPUT_MODE_FULL } x y inP outP := by
  have hv : IsTargetColor16 cx inP info =
      IsTargetColor16 cx inP { info with outputMode := OUTPUT_MODE_FULL } :=
    IsTargetColor16_congr cx inP _ _ rfl (fun _ => rfl) (fun _ _ => ⟨rfl, rfl⟩)
  cases hm : IsTargetColor16 cx inP info with
  | none =>
    rw [hm] at hv
    rw [ProcessPencilLine16, ProcessPencilLine16, ← hv, hm]
  | some m =>
    rw [hm] at hv
    rw [ProcessPencilLine16_of_verdict cx info x y inP outP m hm,
      ProcessPencilLine16_of_verdict cx _ x y inP outP m hv.symm]
    rw [if_neg h2, if_neg h3]
    simp [OUTPUT_MODE_FULL, OUTPUT_MODE_LINE_ONLY, OUTPUT_MODE_BG_ONLY]

/-- In `FULL` mode `ProcessPencilLine16` copies the input pixel. -/
theorem ProcessPencilLine16_full {F D : Type} (cx : CXCommon F D)
    (info : PencilLineInfo D) (x y : Int) (inP outP : PF_Pixel16)
    (hcount : info.colorCount ≤ MAX_COLORS) (hmode : info.outputMode = OUTPUT_MODE_FULL) :
    ProcessPencilLine16 cx info x y inP outP = some (PF_Err_NONE, inP) := by
  rw [ProcessPencilLine16_of_verdict cx info x y inP outP _
    (IsTargetColor16_eq cx inP info hcount)]
  simp [hmode, OUTPUT_MODE_FULL, OUTPUT_MODE_LINE_ONLY, OUTPUT_MODE_BG_ONLY]

/-- The verdict of `IsTargetColorFloat` depends on `colorCount` and `colors` only. -/
theorem IsTargetColorFloat_congr {F D : Type} (cx : CXCommon F D)
    (pixel : PF_PixelFloat F)
    (S S' : PencilLineInfo D) (hcount : S.colorCount = S'.colorCount)
    (hen : ∀ j, (S.colors j).enabled = (S'.colors j).enabled)
    (hc : ∀ j, (S.colors j).enabled ≠ 0 →
      (S.colors j).color = (S'.colors j).color ∧
      (S.colors j).toleranceSq = (S'.colors j).toleranceSq) :
    IsTargetColorFloat cx pixel S = IsTargetColorFloat cx pixel S' := by
  rw [IsTargetColorFloat, IsTargetColorFloat, hcount]
  exact IsTargetColorFloat_loop_congr cx pixel S S' hen hc _ 0

/-- The output of `ProcessPencilLineFloat` depends on the verdict, the mode and the
input pixel only. -/
theorem ProcessPencilLineFloat_congr {F D : Type} [Zero F] (cx : CXCommon F D)
    (S S' : PencilLineInfo D) (x y x' y' : Int) (inP outP outP' : PF_PixelFloat F)
    (hv : IsTargetColorFloat cx inP S = IsTargetColorFloat cx inP S')
    (hmode : S.outputMode = S'.outputMode) :
    ProcessPencilLineFloat cx S x y inP outP = ProcessPencilLineFloat cx S' x' y' inP outP' := by
  cases hm : IsTargetColorFloat cx inP S' with
  | none =>
    rw [hm] at hv
    rw [ProcessPencilLineFloat, ProcessPencilLineFloat, hv, hm]
  | some m =>
    rw [hm] at hv
    rw [ProcessPencilLineFloat_of_verdict cx S x y inP outP m hv,
      ProcessPencilLineFloat_of_verdict cx S' x' y' inP outP' m hm, hmode]

/-- An unrecognised mode takes the `default:` label, which is the `FULL` case. -/
theorem ProcessPencilLineFloat_default {F D : Type} [Zero F] (cx : CXCommon F D)
    (info : PencilLineInfo D) (x y : Int) (inP outP : PF_PixelFloat F)
    (h2 : info.outputMode ≠ OUTPUT_MODE_LINE_ONLY)
    (h3 : info.outputMode ≠ OUTPUT_MODE_BG_ONLY) :
    ProcessPencilLineFloat cx info x y inP outP =
      ProcessPencilLineFloat cx { info with outputMode := OUTPUT_MODE_FULL } x y inP outP := by
  have hv : IsTargetColorFloat cx inP info =
      IsTargetColorFloat cx inP { info with outputMode := OUTPUT_MODE_FULL } :=
    IsTargetColorFloat_congr cx inP _ _ rfl (fun _ => rfl) (fun _ _ => ⟨rfl, rfl⟩)
  cases hm : IsTargetColorFloat cx inP info with
  | none =>
    rw [hm] at hv
    rw [ProcessPencilLineFloat, ProcessPencilLineFloat, ← hv, hm]
  | some m =>
    rw [hm] at hv
    rw [ProcessPencilLineFloat_of_verdict cx info x y inP outP m hm,
      ProcessPencilLineFloat_of_verdict cx _ x y inP outP m hv.symm]
    rw [if_neg h2, if_neg h3]
    simp [OUTPUT_MODE_FULL, OUTPUT_MODE_LINE_ONLY, OUTPUT_MODE_BG_ONLY]

/-- In `FULL` mode `ProcessPencilLineFloat` copies the input pixel. -/
theorem ProcessPencilLineFloat_full {F D : Type} [Zero F] (cx : CXCommon F D)
    (info : PencilLineInfo D) (x y : Int) (inP outP : PF_PixelFloat F)
    (hcount : info.colorCount ≤ MAX_COLORS) (hmode : info.outputMode = OUTPUT_MODE_FULL) :
    ProcessPencilLineFloat cx info x y inP outP = some (PF_Err_NONE, inP) := by
  rw [ProcessPencilLineFloat_of_verdict cx info x y inP outP _
    (IsTargetColorFloat_eq cx inP info hcount)]
  simp [hmode, OUTPUT_MODE_FULL, OUTPUT_MODE_LINE_ONLY, OUTPUT_MODE_BG_ONLY]

/-! ## C1 - C4: policy table, default mode, OR-semantics, identity in `FULL` -/

/-- C1: for each of `ProcessPencilLine8`, `ProcessPencilLine16` and
`ProcessPencilLineFloat`, for every info whose `colorCount` does not exceed the
capacity of `colors`, every input pixel and every `(x, y)`, the classifier has a
verdict and the output pixel is the policy table applied to it: `LINE_ONLY` gives
the source pixel on a match and the all-zero pixel otherwise, `BG_ONLY` the
all-zero pixel on a match and the source pixel otherwise, `FULL` the source pixel
in both cases. -/
theorem C1_policy_table {F D : Type} [Zero F] (cx : CXCommon F D) (info : PencilLineInfo D)
    (hcount : info.colorCount ≤ MAX_COLORS) (x y : Int)
    (in8 out8 : PF_Pixel8) (in16 out16 : PF_Pixel16) (inF outF : PF_PixelFloat F) :
    (∃ m o, IsTargetColor8 cx in8 info = some m ∧
      ProcessPencilLine8 cx info x y in8 out8 = some (PF_Err_NONE, o) ∧
      PolicyTable info.outputMode m in8 { alpha := 0, red := 0, green := 0, blue := 0 } o) ∧
    (∃ m o, IsTargetColor16 cx in16 info = some m ∧
      ProcessPencilLine16 cx info x y in16 out16 = some (PF_Err_NONE, o) ∧
      PolicyTable info.outputMode m in16 { alpha := 0, red := 0, green := 0, blue := 0 } o) ∧
    (∃ m o, IsTargetColorFloat cx inF info = some m ∧
      ProcessPencilLineFloat cx info x y inF outF = some (PF_Err_NONE, o) ∧
      PolicyTable info.outputMode m inF { alpha := 0, red := 0, green := 0, blue := 0 } o) :=
  ⟨⟨_, _, IsTargetColor8_eq cx in8 info hcount,
      ProcessPencilLine8_of_verdict cx info x y in8 out8 _ (IsTargetColor8_eq cx in8 info hcount),
      PolicyTable_of_switch _ _ _ _⟩,
    ⟨_, _, IsTargetColor16_eq cx in16 info hcount,
      ProcessPencilLine16_of_verdict cx info x y in16 out16 _
        (IsTargetColor16_eq cx in16 info hcount),
      PolicyTable_of_switch _ _ _ _⟩,
    ⟨_, _, IsTargetColorFloat_eq cx inF info hcount,
      ProcessPencilLineFloat_of_verdict cx info x y inF outF _
        (IsTargetColorFloat_eq cx inF info hcount),
      PolicyTable_of_switch _ _ _ _⟩⟩

/-- C1 at `exampleInfo` (mode `LINE_ONLY`), pixel coordinates (3, 4). -/
theorem C1_policy_table_witness :
    exampleInfo.colorCount ≤ MAX_COLORS ∧
    ((∃ m o, IsTargetColor8 exampleCX examplePixel8 exampleInfo = some m ∧
      ProcessPencilLine8 exampleCX exampleInfo 3 4 examplePixel8 examplePixel8 =
        some (PF_Err_NONE, o) ∧
      PolicyTable exampleInfo.outputMode m examplePixel8
        { alpha := 0, red := 0, green := 0, blue := 0 } o) ∧
    (∃ m o, IsTargetColor16 exampleCX examplePixel16 exampleInfo = some m ∧
      ProcessPencilLine16 exampleCX exampleInfo 3 4 examplePixel16 examplePixel16 =
        some (PF_Err_NONE, o) ∧
      PolicyTable exampleInfo.outputMode m examplePixel16
        { alpha := 0, red := 0, green := 0, blue := 0 } o) ∧
    (∃ m o, IsTargetColorFloat exampleCX examplePixelFloat exampleInfo = some m ∧
      ProcessPencilLineFloat exampleCX exampleInfo 3 4 examplePixelFloat examplePixelFloat =
        some (PF_Err_NONE, o) ∧
      PolicyTable exampleInfo.outputMode m examplePixelFloat
        { alpha := 0, red := 0, green := 0, blue := 0 } o)) :=
  ⟨by decide, C1_policy_table exampleCX exampleInfo (by decide) 3 4 examplePixel8 examplePixel8
    examplePixel16 examplePixel16 examplePixelFloat examplePixelFloat⟩

/-- C2: for every `outputMode` other than 2 (`LINE_ONLY`) and 3 (`BG_ONLY`), hence
for every value that is none of 1 (`FULL`), 2 and 3 (zero, negative values and
values above 3 included), every pixel and every target set, each
`ProcessPencilLine*` function produces exactly what it produces for the same
inputs with `outputMode = FULL`. -/
theorem C2_unrecognized_mode_as_full {F D : Type} [Zero F] (cx : CXCommon F D)
    (info : PencilLineInfo D)
    (h2 : info.outputMode ≠ OUTPUT_MODE_LINE_ONLY)
    (h3 : info.outputMode ≠ OUTPUT_MODE_BG_ONLY) (x y : Int)
    (in8 out8 : PF_Pixel8) (in16 out16 : PF_Pixel16) (inF outF : PF_PixelFloat F) :
    ProcessPencilLine8 cx info x y in8 out8 =
      ProcessPencilLine8 cx { info with outputMode := OUTPUT_MODE_FULL } x y in8 out8 ∧
    ProcessPencilLine16 cx info x y in16 out16 =
      ProcessPencilLine16 cx { info with outputMode := OUTPUT_MODE_FULL } x y in16 out16 ∧
    ProcessPencilLineFloat cx info x y inF outF =
      ProcessPencilLineFloat cx { info with outputMode := OUTPUT_MODE_FULL } x y inF outF :=
  ⟨ProcessPencilLine8_default cx info x y in8 out8 h2 h3,
    ProcessPencilLine16_default cx info x y in16 out16 h2 h3,
    ProcessPencilLineFloat_default cx info x y inF outF h2 h3⟩

/-- C2 at `exampleInfo` with the mode replaced by -7. -/
theorem C2_unrecognized_mode_as_full_witness :
    ((-7 : Int) ≠ OUTPUT_MODE_LINE_ONLY ∧ (-7 : Int) ≠ OUTPUT_MODE_BG_ONLY) ∧
    (ProcessPencilLine8 exampleCX { exampleInfo with outputMode := -7 } 0 0
        examplePixel8 examplePixel8 =
      ProcessPencilLine8 exampleCX
        { ({ exampleInfo with outputMode := -7 } : PencilLineInfo Int) with
          outputMode := OUTPUT_MODE_FULL } 0 0 examplePixel8 examplePixel8 ∧
    ProcessPencilLine16 exampleCX { exampleInfo with outputMode := -7 } 0 0
        examplePixel16 examplePixel16 =
      ProcessPencilLine16 exampleCX
        { ({ exampleInfo with outputMode := -7 } : PencilLineInfo Int) with
          outputMode := OUTPUT_MODE_FULL } 0 0 examplePixel16 examplePixel16 ∧
    ProcessPencilLineFloat exampleCX { exampleInfo with outputMode := -7 } 0 0
        examplePixelFloat examplePixelFloat =
      ProcessPencilLineFloat exampleCX
        { ({ exampleInfo with outputMode := -7 } : PencilLineInfo Int) with
          outputMode := OUTPUT_MODE_FULL } 0 0 examplePixelFloat examplePixelFloat) :=
  ⟨by decide, C2_unrecognized_mode_as_full exampleCX { exampleInfo with outputMode := -7 }
    (by decide) (by decide) 0 0 examplePixel8 examplePixel8
    examplePixel16 examplePixel16 examplePixelFloat examplePixelFloat⟩

/-- C3: for every pixel and every info with `colorCount ≤ 16` (negative counts
included), `IsTargetColor8` (likewise `IsTargetColor16`, `IsTargetColorFloat`)
returns a verdict, and the verdict is true if and only if some index
`i < colorCount` has `colors[i].enabled` non-zero and passes the per-entry test
`CX_IsTargetColor*` on `colors[i].color` and `colors[i].toleranceSq`; when every
entry is disabled the verdict is false. -/
theorem C3_classifier_or_semantics {F D : Type} (cx : CXCommon F D) (S : PencilLineInfo D)
    (hcount : S.colorCount ≤ MAX_COLORS)
    (p8 : PF_Pixel8) (p16 : PF_Pixel16) (pF : PF_PixelFloat F) :
    (∃ b, IsTargetColor8 cx p8 S = some b ∧
      (b = true ↔ ∃ i : Fin MAX_COLORS, (i.val : Int) < S.colorCount ∧
        (S.colors i).enabled ≠ 0 ∧
        cx.CX_IsTargetColor8 p8 (S.colors i).color.red (S.colors i).color.green
          (S.colors i).color.blue (S.colors i).toleranceSq = true) ∧
      ((∀ i, (S.colors i).enabled = 0) → b = false)) ∧
    (∃ b, IsTargetColor16 cx p16 S = some b ∧
      (b = true ↔ ∃ i : Fin MAX_COLORS, (i.val : Int) < S.colorCount ∧
        (S.colors i).enabled ≠ 0 ∧
        cx.CX_IsTargetColor16 p16 (S.colors i).color.red (S.colors i).color.green
          (S.colors i).color.blue (S.colors i).toleranceSq = true) ∧
      ((∀ i, (S.colors i).enabled = 0) → b = false)) ∧
    (∃ b, IsTargetColorFloat cx pF S = some b ∧
      (b = true ↔ ∃ i : Fin MAX_COLORS, (i.val : Int) < S.colorCount ∧
        (S.colors i).enabled ≠ 0 ∧
        cx.CX_IsTargetColorFloat pF (S.colors i).color.red (S.colors i).color.green
          (S.colors i).color.blue (S.colors i).toleranceSq = true) ∧
      ((∀ i, (S.colors i).enabled = 0) → b = false)) := by
  refine ⟨⟨_, IsTargetColor8_eq cx p8 S hcount, decide_eq_true_iff, ?_⟩,
    ⟨_, IsTargetColor16_eq cx p16 S hcount, decide_eq_true_iff, ?_⟩,
    ⟨_, IsTargetColorFloat_eq cx pF S hcount, decide_eq_true_iff, ?_⟩⟩ <;>
  · intro hall
    rw [decide_eq_false_iff_not]
    rintro ⟨i, _, hne, _⟩
    exact hne (hall i)

/-- C4: in `FULL` mode the per-pixel function is the identity on pixels: for every
target set with `colorCount ≤ 16`, every input pixel and every `(x, y)`, each of
`ProcessPencilLine8/16/Float` writes the input pixel, all four channels, whether
or not the pixel matches. -/
theorem C4_full_mode_identity {F D : Type} [Zero F] (cx : CXCommon F D)
    (info : PencilLineInfo D) (hcount : info.colorCount ≤ MAX_COLORS)
    (hmode : info.outputMode = OUTPUT_MODE_FULL) (x y : Int)
    (in8 out8 : PF_Pixel8) (in16 out16 : PF_Pixel16) (inF outF : PF_PixelFloat F) :
    ProcessPencilLine8 cx info x y in8 out8 = some (PF_Err_NONE, in8) ∧
    ProcessPencilLine16 cx info x y in16 out16 = some (PF_Err_NONE, in16) ∧
    ProcessPencilLineFloat cx info x y inF outF = some (PF_Err_NONE, inF) :=
  ⟨ProcessPencilLine8_full cx info x y in8 out8 hcount hmode,
    ProcessPencilLine16_full cx info x y in16 out16 hcount hmode,
    ProcessPencilLineFloat_full cx info x y inF outF hcount hmode⟩

/-- C3 at `exampleInfo`. -/
theorem C3_classifier_or_semantics_witness :
    exampleInfo.colorCount ≤ MAX_COLORS ∧
    ((∃ b, IsTargetColor8 exampleCX examplePixel8 exampleInfo = some b ∧
      (b = true ↔ ∃ i : Fin MAX_COLORS, (i.val : Int) < exampleInfo.colorCount ∧
        (exampleInfo.colors i).enabled ≠ 0 ∧
        exampleCX.CX_IsTargetColor8 examplePixel8 (exampleInfo.colors i).color.red
          (exampleInfo.colors i).color.green (exampleInfo.colors i).color.blue
          (exampleInfo.colors i).toleranceSq = true) ∧
      ((∀ i, (exampleInfo.colors i).enabled = 0) → b = false)) ∧
    (∃ b, IsTargetColor16 exampleCX examplePixel16 exampleInfo = some b ∧
      (b = true ↔ ∃ i : Fin MAX_COLORS, (i.val : Int) < exampleInfo.colorCount ∧
        (exampleInfo.colors i).enabled ≠ 0 ∧
        exampleCX.CX_IsTargetColor16 examplePixel16 (exampleInfo.colors i).color.red
          (exampleInfo.colors i).color.green (exampleInfo.colors i).color.blue
          (exampleInfo.colors i).toleranceSq = true) ∧
      ((∀ i, (exampleInfo.colors i).enabled = 0) → b = false)) ∧
    (∃ b, IsTargetColorFloat exampleCX examplePixelFloat exampleInfo = some b ∧
      (b = true ↔ ∃ i : Fin MAX_COLORS, (i.val : Int) < exampleInfo.colorCount ∧
        (exampleInfo.colors i).enabled ≠ 0 ∧
        exampleCX.CX_IsTargetColorFloat examplePixelFloat (exampleInfo.colors i).color.red
          (exampleInfo.colors i).color.green (exampleInfo.colors i).color.blue
          (exampleInfo.colors i).toleranceSq = true) ∧
      ((∀ i, (exampleInfo.colors i).enabled = 0) → b = false))) :=
  ⟨by decide, C3_classifier_or_semantics exampleCX exampleInfo (by decide)
    examplePixel8 examplePixel16 examplePixelFloat⟩

/-- C4 at `exampleInfo` switched to `FULL`: a matching 8-bit pixel, a 16-bit pixel
that does not match and a matching float pixel are all copied. -/
theorem C4_full_mode_identity_witness :
    (({ exampleInfo with outputMode := OUTPUT_MODE_FULL } : PencilLineInfo Int).colorCount
        ≤ MAX_COLORS ∧
      ({ exampleInfo with outputMode := OUTPUT_MODE_FULL } : PencilLineInfo Int).outputMode
        = OUTPUT_MODE_FULL) ∧
    (ProcessPencilLine8 exampleCX { exampleInfo with outputMode := OUTPUT_MODE_FULL } 3 4
        examplePixel8 { alpha := 9, red := 9, green := 9, blue := 9 } =
      some (PF_Err_NONE, examplePixel8) ∧
    ProcessPencilLine16 exampleCX { exampleInfo with outputMode := OUTPUT_MODE_FULL } 3 4
        examplePixel16 { alpha := 9, red := 9, green := 9, blue := 9 } =
      some (PF_Err_NONE, examplePixel16) ∧
    ProcessPencilLineFloat exampleCX { exampleInfo with outputMode := OUTPUT_MODE_FULL } 3 4
        examplePixelFloat { alpha := 9, red := 9, green := 9, blue := 9 } =
      some (PF_Err_NONE, examplePixelFloat)) :=
  ⟨by decide, C4_full_mode_identity exampleCX { exampleInfo with outputMode := OUTPUT_MODE_FULL }
    (by decide) rfl 3 4 examplePixel8 _ examplePixel16 _ examplePixelFloat _⟩

/-! ## C5 - C7: what the verdict and the output pixel depend on -/

/-- Two arrays with the same entries up to order satisfy the same existential
statements about their entries. -/
theorem exists_entry_of_perm {D : Type} (Q : ColorEntry D → Prop)
    (c c' : Fin MAX_COLORS → ColorEntry D) (h : List.Perm (List.ofFn c) (List.ofFn c')) :
    (∃ j, Q (c j)) → ∃ j, Q (c' j) := by
  rintro ⟨j, hj⟩
  have hmem : c j ∈ List.ofFn c := (List.mem_ofFn c (c j)).2 ⟨j, rfl⟩
  obtain ⟨k, hk⟩ := (List.mem_ofFn c' (c j)).1 (h.mem_iff.1 hmem)
  exact ⟨k, by rw [hk]; exact hj⟩

/-- With all 16 entries in use the verdict of `IsTargetColor8` is invariant under
reordering of the entries. -/
theorem IsTargetColor8_perm {F D : Type} (cx : CXCommon F D) (pixel : PF_Pixel8)
    (S S' : PencilLineInfo D) (h : S.colorCount = (MAX_COLORS : Int))
    (h' : S'.colorCount = (MAX_COLORS : Int))
    (hperm : List.Perm (List.ofFn S.colors) (List.ofFn S'.colors)) :
    IsTargetColor8 cx pixel S = IsTargetColor8 cx pixel S' := by
  rw [IsTargetColor8_eq cx pixel S (le_of_eq h), IsTargetColor8_eq cx pixel S' (le_of_eq h')]
  congr 1
  rw [decide_eq_decide]
  have key : ∀ (T T' : PencilLineInfo D), T.colorCount = (MAX_COLORS : Int) →
      T'.colorCount = (MAX_COLORS : Int) →
      List.Perm (List.ofFn T.colors) (List.ofFn T'.colors) →
      (∃ j : Fin MAX_COLORS, (j.val : Int) < T.colorCount ∧ (T.colors j).enabled ≠ 0 ∧
        cx.CX_IsTargetColor8 pixel (T.colors j).color.red (T.colors j).color.green
          (T.colors j).color.blue (T.colors j).toleranceSq = true) →
      ∃ j : Fin MAX_COLORS, (j.val : Int) < T'.colorCount ∧ (T'.colors j).enabled ≠ 0 ∧
        cx.CX_IsTargetColor8 pixel (T'.colors j).color.red (T'.colors j).color.green
          (T'.colors j).color.blue (T'.colors j).toleranceSq = true := by
    intro T T' hT hT' hp hex
    obtain ⟨j, _, hj⟩ := hex
    obtain ⟨k, hk⟩ := exists_entry_of_perm
      (fun e => e.enabled ≠ 0 ∧
        cx.CX_IsTargetColor8 pixel e.color.red e.color.green e.color.blue e.toleranceSq = true)
      T.colors T'.colors hp ⟨j, hj⟩
    refine ⟨k, ?_, hk⟩
    rw [hT']
    have := k.isLt
    omega
  exact ⟨key S S' h h' hperm, key S' S h' h hperm.symm⟩

/-- With all 16 entries in use the verdict of `IsTargetColor16` is invariant under
reordering of the entries. -/
theorem IsTargetColor16_perm {F D : Type} (cx : CXCommon F D) (pixel : PF_Pixel16)
    (S S' : PencilLineInfo D) (h : S.colorCount = (MAX_COLORS : Int))
    (h' : S'.colorCount = (MAX_COLORS : Int))
    (hperm : List.Perm (List.ofFn S.colors) (List.ofFn S'.colors)) :
    IsTargetColor16 cx pixel S = IsTargetColor16 cx pixel S' := by
  rw [IsTargetColor16_eq cx pixel S (le_of_eq h), IsTargetColor16_eq cx pixel S' (le_of_eq h')]
  congr 1
  rw [decide_eq_decide]
  have key : ∀ (T T' : PencilLineInfo D), T.colorCount = (MAX_COLORS : Int) →
      T'.colorCount = (MAX_COLORS : Int) →
      List.Perm (List.ofFn T.colors) (List.ofFn T'.colors) →
      (∃ j : Fin MAX_COLORS, (j.val : Int) < T.colorCount ∧ (T.colors j).enabled ≠ 0 ∧
        cx.CX_IsTargetColor16 pixel (T.colors j).color.red (T.colors j).color.green
          (T.colors j).color.blue (T.colors j).toleranceSq = true) →
      ∃ j : Fin MAX_COLORS, (j.val : Int) < T'.colorCount ∧ (T'.colors j).enabled ≠ 0 ∧
        cx.CX_IsTargetColor16 pixel (T'.colors j).color.red (T'.colors j).color.green
          (T'.colors j).color.blue (T'.colors j).toleranceSq = true := by
    intro T T' hT hT' hp hex
    obtain ⟨j, _, hj⟩ := hex
    obtain ⟨k, hk⟩ := exists_entry_of_perm
      (fun e => e.enabled ≠ 0 ∧
        cx.CX_IsTargetColor16 pixel e.color.red e.color.green e.color.blue e.toleranceSq = true)
      T.colors T'.colors hp ⟨j, hj⟩
    refine ⟨k, ?_, hk⟩
    rw [hT']
    have := k.isLt
    omega
  exact ⟨key S S' h h' hperm, key S' S h' h hperm.symm⟩

/-- With all 16 entries in use the verdict of `IsTargetColorFloat` is invariant under
reordering of the entries. -/
theorem IsTargetColorFloat_perm {F D : Type} (cx : CXCommon F D) (pixel : PF_PixelFloat F)
    (S S' : PencilLineInfo D) (h : S.colorCount = (MAX_COLORS : Int))
    (h' : S'.colorCount = (MAX_COLORS : Int))
    (hperm : List.Perm (List.ofFn S.colors) (List.ofFn S'.colors)) :
    IsTargetColorFloat cx pixel S = IsTargetColorFloat cx pixel S' := by
  rw [IsTargetColorFloat_eq cx pixel S (le_of_eq h), IsTargetColorFloat_eq cx pixel S' (le_of_eq h')]
  congr 1
  rw [decide_eq_decide]
  have key : ∀ (T T' : PencilLineInfo D), T.colorCount = (MAX_COLORS : Int) →
      T'.colorCount = (MAX_COLORS : Int) →
      List.Perm (List.ofFn T.colors) (List.ofFn T'.colors) →
      (∃ j : Fin MAX_COLORS, (j.val : Int) < T.colorCount ∧ (T.colors j).enabled ≠ 0 ∧
        cx.CX_IsTargetColorFloat pixel (T.colors j).color.red (T.colors j).color.green
          (T.colors j).color.blue (T.colors j).toleranceSq = true) →
      ∃ j : Fin MAX_COLORS, (j.val : Int) < T'.colorCount ∧ (T'.colors j).enabled ≠ 0 ∧
        cx.CX_IsTargetColorFloat pixel (T'.colors j).color.red (T'.colors j).color.green
          (T'.colors j).color.blue (T'.colors j).toleranceSq = true := by
    intro T T' hT hT' hp hex
    obtain ⟨j, _, hj⟩ := hex
    obtain ⟨k, hk⟩ := exists_entry_of_perm
      (fun e => e.enabled ≠ 0 ∧
        cx.CX_IsTargetColorFloat pixel e.color.red e.color.green e.color.blue e.toleranceSq = true)
      T.colors T'.colors hp ⟨j, hj⟩
    refine ⟨k, ?_, hk⟩
    rw [hT']
    have := k.isLt
    omega
  exact ⟨key S S' h h' hperm, key S' S h' h hperm.symm⟩

/-- C5: the verdict does not depend on the order of the entries: for every pixel
and every two infos with `colorCount = 16` whose 16 entries are permutations of
one another, `IsTargetColor8` returns the same verdict on both, and likewise
`IsTargetColor16` and `IsTargetColorFloat`. -/
theorem C5_order_independent {F D : Type} (cx : CXCommon F D) (S S' : PencilLineInfo D)
    (h : S.colorCount = (MAX_COLORS : Int)) (h' : S'.colorCount = (MAX_COLORS : Int))
    (hperm : List.Perm (List.ofFn S.colors) (List.ofFn S'.colors))
    (p8 : PF_Pixel8) (p16 : PF_Pixel16) (pF : PF_PixelFloat F) :
    IsTargetColor8 cx p8 S = IsTargetColor8 cx p8 S' ∧
    IsTargetColor16 cx p16 S = IsTargetColor16 cx p16 S' ∧
    IsTargetColorFloat cx pF S = IsTargetColorFloat cx pF S' :=
  ⟨IsTargetColor8_perm cx p8 S S' h h' hperm, IsTargetColor16_perm cx p16 S S' h h' hperm,
    IsTargetColorFloat_perm cx pF S S' h h' hperm⟩

/-- C5 at `exampleInfo` and `exampleInfoPermuted`. -/
theorem C5_order_independent_witness :
    (exampleInfo.colorCount = (MAX_COLORS : Int) ∧
      exampleInfoPermuted.colorCount = (MAX_COLORS : Int) ∧
      List.Perm (List.ofFn exampleInfo.colors) (List.ofFn exampleInfoPermuted.colors)) ∧
    (IsTargetColor8 exampleCX examplePixel8 exampleInfo =
      IsTargetColor8 exampleCX examplePixel8 exampleInfoPermuted ∧
    IsTargetColor16 exampleCX examplePixel16 exampleInfo =
      IsTargetColor16 exampleCX examplePixel16 exampleInfoPermuted ∧
    IsTargetColorFloat exampleCX examplePixelFloat exampleInfo =
      IsTargetColorFloat exampleCX examplePixelFloat exampleInfoPermuted) :=
  ⟨by decide, C5_order_independent exampleCX exampleInfo exampleInfoPermuted (by decide)
    (by decide) (by decide) examplePixel8 examplePixel16 examplePixelFloat⟩

/-- C6: disabled entries are skipped: for every pixel and every two infos that
agree on `colorCount`, on every enabled flag, and on the colour and `toleranceSq`
of every enabled entry (the colour, tolerance and `toleranceSq` of disabled
entries being arbitrary), `IsTargetColor8/16/Float` return the same verdict, and
hence, the mode being the same, `ProcessPencilLine8/16/Float` write the same
output pixel. -/
theorem C6_disabled_entries_skipped {F D : Type} [Zero F] (cx : CXCommon F D)
    (S S' : PencilLineInfo D) (hcount : S.colorCount = S'.colorCount)
    (hen : ∀ i, (S.colors i).enabled = (S'.colors i).enabled)
    (hc : ∀ i, (S.colors i).enabled ≠ 0 →
      (S.colors i).color = (S'.colors i).color ∧
      (S.colors i).toleranceSq = (S'.colors i).toleranceSq)
    (x y : Int) (in8 out8 : PF_Pixel8) (in16 out16 : PF_Pixel16)
    (inF outF : PF_PixelFloat F) :
    (IsTargetColor8 cx in8 S = IsTargetColor8 cx in8 S' ∧
      IsTargetColor16 cx in16 S = IsTargetColor16 cx in16 S' ∧
      IsTargetColorFloat cx inF S = IsTargetColorFloat cx inF S') ∧
    (S.outputMode = S'.outputMode →
      ProcessPencilLine8 cx S x y in8 out8 = ProcessPencilLine8 cx S' x y in8 out8 ∧
      ProcessPencilLine16 cx S x y in16 out16 = ProcessPencilLine16 cx S' x y in16 out16 ∧
      ProcessPencilLineFloat cx S x y inF outF =
        ProcessPencilLineFloat cx S' x y inF outF) := by
  have v8 := IsTargetColor8_congr cx in8 S S' hcount hen hc
  have v16 := IsTargetColor16_congr cx in16 S S' hcount hen hc
  have vF := IsTargetColorFloat_congr cx inF S S' hcount hen hc
  exact ⟨⟨v8, v16, vF⟩, fun hmode =>
    ⟨ProcessPencilLine8_congr cx S S' x y x y in8 out8 out8 v8 hmode,
      ProcessPencilLine16_congr cx S S' x y x y in16 out16 out16 v16 hmode,
      ProcessPencilLineFloat_congr cx S S' x y x y inF outF outF vF hmode⟩⟩

/-- C6 at `exampleInfo` and `exampleInfoDisabledDiffer`; the 16-bit pixel has the
colour held by the disabled slot 3 of the latter. -/
theorem C6_disabled_entries_skipped_witness :
    (exampleInfo.colorCount = exampleInfoDisabledDiffer.colorCount ∧
      (∀ i, (exampleInfo.colors i).enabled = (exampleInfoDisabledDiffer.colors i).enabled) ∧
      (∀ i, (exampleInfo.colors i).enabled ≠ 0 →
        (exampleInfo.colors i).color = (exampleInfoDisabledDiffer.colors i).color ∧
        (exampleInfo.colors i).toleranceSq =
          (exampleInfoDisabledDiffer.colors i).toleranceSq)) ∧
    ((IsTargetColor8 exampleCX examplePixel8 exampleInfo =
        IsTargetColor8 exampleCX examplePixel8 exampleInfoDisabledDiffer ∧
      IsTargetColor16 exampleCX examplePixel16 exampleInfo =
        IsTargetColor16 exampleCX examplePixel16 exampleInfoDisabledDiffer ∧
      IsTargetColorFloat exampleCX examplePixelFloat exampleInfo =
        IsTargetColorFloat exampleCX examplePixelFloat exampleInfoDisabledDiffer) ∧
    (exampleInfo.outputMode = exampleInfoDisabledDiffer.outputMode →
      ProcessPencilLine8 exampleCX exampleInfo 3 4 examplePixel8 examplePixel8 =
        ProcessPencilLine8 exampleCX exampleInfoDisabledDiffer 3 4 examplePixel8
          examplePixel8 ∧
      ProcessPencilLine16 exampleCX exampleInfo 3 4 examplePixel16 examplePixel16 =
        ProcessPencilLine16 exampleCX exampleInfoDisabledDiffer 3 4 examplePixel16
          examplePixel16 ∧
      ProcessPencilLineFloat exampleCX exampleInfo 3 4 examplePixelFloat examplePixelFloat =
        ProcessPencilLineFloat exampleCX exampleInfoDisabledDiffer 3 4 examplePixelFloat
          examplePixelFloat)) :=
  ⟨by decide, C6_disabled_entries_skipped exampleCX exampleInfo exampleInfoDisabledDiffer
    (by decide) (by decide) (by decide) 3 4 examplePixel8 examplePixel8
    examplePixel16 examplePixel16 examplePixelFloat examplePixelFloat⟩

/-- C7: the output pixel of `ProcessPencilLine8/16/Float` is a function of the
input pixel, the target colour set (`colorCount` and `colors`) and `outputMode`
only: two calls that agree on those give equal results, whatever their
coordinates `x`, `y`, the fields `lineWidth`, `lineDensity`, `textureStrength`
and the previous contents of the output pixel. -/
theorem C7_output_depends_on_pixel_set_mode {F D : Type} [Zero F] (cx : CXCommon F D)
    (S S' : PencilLineInfo D) (hcount : S.colorCount = S'.colorCount)
    (hcolors : S.colors = S'.colors) (hmode : S.outputMode = S'.outputMode)
    (x y x' y' : Int) (in8 out8 out8' : PF_Pixel8) (in16 out16 out16' : PF_Pixel16)
    (inF outF outF' : PF_PixelFloat F) :
    ProcessPencilLine8 cx S x y in8 out8 = ProcessPencilLine8 cx S' x' y' in8 out8' ∧
    ProcessPencilLine16 cx S x y in16 out16 = ProcessPencilLine16 cx S' x' y' in16 out16' ∧
    ProcessPencilLineFloat cx S x y inF outF =
      ProcessPencilLineFloat cx S' x' y' inF outF' := by
  have hen : ∀ i, (S.colors i).enabled = (S'.colors i).enabled := fun i => by rw [hcolors]
  have hc : ∀ i, (S.colors i).enabled ≠ 0 →
      (S.colors i).color = (S'.colors i).color ∧
      (S.colors i).toleranceSq = (S'.colors i).toleranceSq :=
    fun i _ => by rw [hcolors]; exact ⟨rfl, rfl⟩
  exact ⟨ProcessPencilLine8_congr cx S S' x y x' y' in8 out8 out8'
      (IsTargetColor8_congr cx in8 S S' hcount hen hc) hmode,
    ProcessPencilLine16_congr cx S S' x y x' y' in16 out16 out16'
      (IsTargetColor16_congr cx in16 S S' hcount hen hc) hmode,
    ProcessPencilLineFloat_congr cx S S' x y x' y' inF outF outF'
      (IsTargetColorFloat_congr cx inF S S' hcount hen hc) hmode⟩

/-- C7 at `exampleInfo` and `exampleInfoTexture`, coordinates (3, 4) and
(100, -2). -/
theorem C7_output_depends_on_pixel_set_mode_witness :
    (exampleInfo.colorCount = exampleInfoTexture.colorCount ∧
      exampleInfo.colors = exampleInfoTexture.colors ∧
      exampleInfo.outputMode = exampleInfoTexture.outputMode) ∧
    (ProcessPencilLine8 exampleCX exampleInfo 3 4 examplePixel8 examplePixel8 =
      ProcessPencilLine8 exampleCX exampleInfoTexture 100 (-2) examplePixel8
        { alpha := 9, red := 9, green := 9, blue := 9 } ∧
    ProcessPencilLine16 exampleCX exampleInfo 3 4 examplePixel16 examplePixel16 =
      ProcessPencilLine16 exampleCX exampleInfoTexture 100 (-2) examplePixel16
        { alpha := 9, red := 9, green := 9, blue := 9 } ∧
    ProcessPencilLineFloat exampleCX exampleInfo 3 4 examplePixelFloat examplePixelFloat =
      ProcessPencilLineFloat exampleCX exampleInfoTexture 100 (-2) examplePixelFloat
        { alpha := 9, red := 9, green := 9, blue := 9 }) :=
  ⟨⟨rfl, rfl, rfl⟩, C7_output_depends_on_pixel_set_mode exampleCX exampleInfo
    exampleInfoTexture rfl rfl rfl 3 4 100 (-2) examplePixel8 examplePixel8 _
    examplePixel16 examplePixel16 _ examplePixelFloat examplePixelFloat _⟩

/-! ## The prepare step -/

/-- An iteration of the colour loop entered with an error does nothing. -/
theorem PreRender_body_of_err {F D : Type} [Zero D] (cx : CXCommon F D)
    (host : PreRenderHost D) (i : Fin MAX_COLORS) (st : PreRenderState D)
    (h : st.err ≠ PF_Err_NONE) : PreRender.body cx host i st = st := by
  simp [PreRender.body, PreRender.checkout, h]

/-- The error code after an iteration of the colour loop entered without error. -/
theorem PreRender_body_err {F D : Type} [Zero D] (cx : CXCommon F D)
    (host : PreRenderHost D) (i : Fin MAX_COLORS) (st : PreRenderState D)
    (h : st.err = PF_Err_NONE) : (PreRender.body cx host i st).err = slotErr host i := by
  unfold PreRender.body PreRender.checkout slotErr
  by_cases h1 : (host.checkout_param (COLOR_ENABLED_PARAM ((i : Int) + 1))).1 = PF_Err_NONE <;>
  by_cases h2 : (host.checkout_param (COLOR_PARAM ((i : Int) + 1))).1 = PF_Err_NONE <;>
  by_cases h3 : (host.checkout_param (COLOR_TOLERANCE_PARAM ((i : Int) + 1))).1 = PF_Err_NONE <;>
  simp [h, h1, h2, h3]

/-- The info after an iteration of the colour loop entered without error. -/
theorem PreRender_body_info {F D : Type} [Zero D] (cx : CXCommon F D)
    (host : PreRenderHost D) (i : Fin MAX_COLORS) (st : PreRenderState D)
    (h : st.err = PF_Err_NONE) :
    (PreRender.body cx host i st).info =
      if slotErr host i = PF_Err_NONE then
        { st.info with colors := Function.update st.info.colors i (entryOfParams cx host i) }
      else st.info := by
  unfold PreRender.body PreRender.checkout slotErr entryOfParams
  by_cases h1 : (host.checkout_param (COLOR_ENABLED_PARAM ((i : Int) + 1))).1 = PF_Err_NONE <;>
  by_cases h2 : (host.checkout_param (COLOR_PARAM ((i : Int) + 1))).1 = PF_Err_NONE <;>
  by_cases h3 : (host.checkout_param (COLOR_TOLERANCE_PARAM ((i : Int) + 1))).1 = PF_Err_NONE <;>
  simp [h, h1, h2, h3]

/-- The state after `n` iterations of the colour loop started without error: the
error code is clear exactly when the first `n` slots were read without failure,
it is the code of the first slot that failed otherwise, and slot `i` holds the
entry described by its parameters exactly when it and all slots before it were
read without failure. -/
theorem PreRender_colorLoop_spec {F D : Type} [Zero D] (cx : CXCommon F D)
    (host : PreRenderHost D) (st0 : PreRenderState D) (h0 : st0.err = PF_Err_NONE)
    (n : Nat) (hn : n ≤ MAX_COLORS) :
    ((PreRender.colorLoop cx host st0 n).err = PF_Err_NONE ↔
      ∀ j : Fin MAX_COLORS, j.val < n → slotErr host j = PF_Err_NONE) ∧
    (∀ k : Fin MAX_COLORS, k.val < n →
      (∀ j : Fin MAX_COLORS, j < k → slotErr host j = PF_Err_NONE) →
      slotErr host k ≠ PF_Err_NONE →
      (PreRender.colorLoop cx host st0 n).err = slotErr host k) ∧
    (∀ i : Fin MAX_COLORS, (PreRender.colorLoop cx host st0 n).info.colors i =
      if i.val < n ∧ ∀ j : Fin MAX_COLORS, j ≤ i → slotErr host j = PF_Err_NONE then
        entryOfParams cx host i
      else st0.info.colors i) ∧
    (PreRender.colorLoop cx host st0 n).info.colorCount = st0.info.colorCount := by
  induction n with
  | zero =>
    refine ⟨?_, ?_, ?_, rfl⟩
    · simp [PreRender.colorLoop, h0]
    · intro k hk
      exact absurd hk (Nat.not_lt_zero _)
    · intro i
      simp [PreRender.colorLoop]
  | succ n ih =>
    have hlt : n < MAX_COLORS := hn
    obtain ⟨ih1, ih2, ih3, ih4⟩ := ih (Nat.le_of_lt hlt)
    have hstep : PreRender.colorLoop cx host st0 (n + 1) =
        PreRender.body cx host ⟨n, hlt⟩ (PreRender.colorLoop cx host st0 n) := by
      rw [PreRender.colorLoop, dif_pos hlt]
    rw [hstep]
    by_cases herr : (PreRender.colorLoop cx host st0 n).err = PF_Err_NONE
    · -- the first `n` slots were read without failure
      have hall := ih1.1 herr
      have hE := PreRender_body_err cx host ⟨n, hlt⟩ _ herr
      have hI := PreRender_body_info cx host ⟨n, hlt⟩ _ herr
      refine ⟨?_, ?_, ?_, ?_⟩
      · rw [hE]
        constructor
        · intro hs j hj
          by_cases hjn : j.val = n
          · have : j = ⟨n, hlt⟩ := Fin.ext hjn
            rw [this]; exact hs
          · exact hall j (by omega)
        · intro h
          exact h ⟨n, hlt⟩ (Nat.lt_succ_self n)
      · intro k hk hbefore hfail
        rw [hE]
        by_cases hkn : k.val = n
        · have : k = ⟨n, hlt⟩ := Fin.ext hkn
          rw [this]
        · exact absurd (hall k (by omega)) hfail
      · intro i
        rw [hI]
        by_cases hs : slotErr host ⟨n, hlt⟩ = PF_Err_NONE
        · rw [if_pos hs]
          by_cases hin : i = ⟨n, hlt⟩
          · subst hin
            have hc : (n < n + 1) ∧
                ∀ j : Fin MAX_COLORS, j ≤ (⟨n, hlt⟩ : Fin MAX_COLORS) →
                  slotErr host j = PF_Err_NONE := by
              refine ⟨Nat.lt_succ_self n, fun j hj => ?_⟩
              by_cases hjn : j.val = n
              · have : j = ⟨n, hlt⟩ := Fin.ext hjn
                rw [this]; exact hs
              · have hj' : j.val ≤ n := hj
                exact hall j (by omega)
            simp only [Function.update_same]
            rw [if_pos hc]
          · have hne : i.val ≠ n := fun h => hin (Fin.ext h)
            simp only [Function.update_noteq hin]
            rw [ih3 i]
            have hiff : (i.val < n ∧ ∀ j : Fin MAX_COLORS, j ≤ i →
                  slotErr host j = PF_Err_NONE) ↔
                (i.val < n + 1 ∧ ∀ j : Fin MAX_COLORS, j ≤ i →
                  slotErr host j = PF_Err_NONE) := by
              constructor
              · rintro ⟨a, b⟩; exact ⟨by omega, b⟩
              · rintro ⟨a, b⟩; exact ⟨by omega, b⟩
            simp only [hiff]
        · rw [if_neg hs, ih3 i]
          by_cases hi : i.val < n
          · have hiff : (i.val < n ∧ ∀ j : Fin MAX_COLORS, j ≤ i →
                  slotErr host j = PF_Err_NONE) ↔
                (i.val < n + 1 ∧ ∀ j : Fin MAX_COLORS, j ≤ i →
                  slotErr host j = PF_Err_NONE) := by
              constructor
              · rintro ⟨a, b⟩; exact ⟨by omega, b⟩
              · rintro ⟨_, b⟩; exact ⟨hi, b⟩
            simp only [hiff]
          · have hn1 : ¬ (i.val < n ∧ ∀ j : Fin MAX_COLORS, j ≤ i →
                  slotErr host j = PF_Err_NONE) := fun h => hi h.1
            have hn2 : ¬ (i.val < n + 1 ∧ ∀ j : Fin MAX_COLORS, j ≤ i →
                  slotErr host j = PF_Err_NONE) := by
              rintro ⟨a, b⟩
              have hin : (⟨n, hlt⟩ : Fin MAX_COLORS) ≤ i := by
                show n ≤ i.val
                omega
              exact hs (b _ hin)
            rw [if_neg hn1, if_neg hn2]
      · rw [hI]
        by_cases hs : slotErr host ⟨n, hlt⟩ = PF_Err_NONE
        · rw [if_pos hs]; exact ih4
        · rw [if_neg hs]; exact ih4
    · -- a slot before `n` failed: the iteration does nothing
      rw [PreRender_body_of_err cx host ⟨n, hlt⟩ _ herr]
      have hnot : ¬ ∀ j : Fin MAX_COLORS, j.val < n → slotErr host j = PF_Err_NONE :=
        fun h => herr (ih1.2 h)
      refine ⟨?_, ?_, ?_, ih4⟩
      · constructor
        · intro h; exact absurd h herr
        · intro h
          exact absurd (fun j hj => h j (by omega)) hnot
      · intro k hk hbefore hfail
        by_cases hkn : k.val < n
        · exact ih2 k hkn hbefore hfail
        · exfalso
          apply hnot
          intro j hj
          apply hbefore
          show j.val < k.val
          omega
      · intro i
        rw [ih3 i]
        have hiff : (i.val < n ∧ ∀ j : Fin MAX_COLORS, j ≤ i →
              slotErr host j = PF_Err_NONE) ↔
            (i.val < n + 1 ∧ ∀ j : Fin MAX_COLORS, j ≤ i →
              slotErr host j = PF_Err_NONE) := by
          constructor
          · rintro ⟨a, b⟩; exact ⟨by omega, b⟩
          · rintro ⟨a, b⟩
            refine ⟨?_, b⟩
            by_contra hge
            apply hnot
            intro j hj
            apply b
            show j.val ≤ i.val
            omega
        simp only [hiff]

/-- What `PreRender` returns once the handle is allocated: the handle holds the
`colorCount` and `colors` left by the colour loop, and an error raised in the
colour loop is the error returned. -/
theorem PreRender_after_loop {F D : Type} [Zero D] (cx : CXCommon F D)
    (host : PreRenderHost D) (halloc : host.host_new_handle = true) :
    ∃ info, (PreRender cx host).handle = some info ∧
      info.colors = (PreRender.colorLoop cx host PreRender.init MAX_COLORS).info.colors ∧
      info.colorCount =
        (PreRender.colorLoop cx host PreRender.init MAX_COLORS).info.colorCount ∧
      ((PreRender.colorLoop cx host PreRender.init MAX_COLORS).err ≠ PF_Err_NONE →
        (PreRender cx host).err =
          (PreRender.colorLoop cx host PreRender.init MAX_COLORS).err) := by
  unfold PreRender
  simp only [halloc, Bool.true_eq_false, if_false]
  generalize PreRender.colorLoop cx host PreRender.init MAX_COLORS = L
  by_cases hL : L.err = PF_Err_NONE
  · by_cases h1 : (host.checkout_param PENCILLINE_LINE_WIDTH).1 = PF_Err_NONE <;>
    by_cases h2 : (host.checkout_param PENCILLINE_LINE_DENSITY).1 = PF_Err_NONE <;>
    by_cases h3 : (host.checkout_param PENCILLINE_TEXTURE_STRENGTH).1 = PF_Err_NONE <;>
    by_cases h4 : (host.checkout_param PENCILLINE_OUTPUT_MODE).1 = PF_Err_NONE <;>
    simp [PreRender.checkout, hL, h1, h2, h3, h4]
  · simp [PreRender.checkout, hL]

/-- A slot all of whose three checkouts succeed ends without error. -/
theorem slotErr_eq_none {D : Type} (host : PreRenderHost D) (i : Fin MAX_COLORS)
    (h1 : (host.checkout_param (COLOR_ENABLED_PARAM ((i : Int) + 1))).1 = PF_Err_NONE)
    (h2 : (host.checkout_param (COLOR_PARAM ((i : Int) + 1))).1 = PF_Err_NONE)
    (h3 : (host.checkout_param (COLOR_TOLERANCE_PARAM ((i : Int) + 1))).1 = PF_Err_NONE) :
    slotErr host i = PF_Err_NONE := by
  simp [slotErr, h1, h2, h3]

/-- The slots before the one that holds the first failing parameter `m` end
without error, and the slot of `m` ends with the error of `m`. -/
theorem slotErr_of_first_failure {D : Type} (host : PreRenderHost D) (m : Int)
    (hbefore : ∀ j : Int, 2 ≤ j → j < m → (host.checkout_param j).1 = PF_Err_NONE)
    (hfail : (host.checkout_param m).1 ≠ PF_Err_NONE) :
    (∀ j : Fin MAX_COLORS, (j.val : Int) < (m - 2) / 3 → slotErr host j = PF_Err_NONE) ∧
    (∀ k : Fin MAX_COLORS, (k.val : Int) = (m - 2) / 3 →
      slotErr host k = (host.checkout_param m).1) := by
  constructor
  · intro j hj
    have hjlt := j.isLt
    apply slotErr_eq_none <;> apply hbefore <;>
      simp only [COLOR_ENABLED_PARAM, COLOR_PARAM, COLOR_TOLERANCE_PARAM,
        PENCILLINE_COLOR1_ENABLED, PENCILLINE_COLOR1, PENCILLINE_COLOR1_TOLERANCE] <;>
      omega
  · intro k hk
    have hklt := k.isLt
    have hcases : m = COLOR_ENABLED_PARAM ((k.val : Int) + 1) ∨
        m = COLOR_PARAM ((k.val : Int) + 1) ∨
        m = COLOR_TOLERANCE_PARAM ((k.val : Int) + 1) := by
      simp only [COLOR_ENABLED_PARAM, COLOR_PARAM, COLOR_TOLERANCE_PARAM,
        PENCILLINE_COLOR1_ENABLED, PENCILLINE_COLOR1, PENCILLINE_COLOR1_TOLERANCE]
      omega
    rcases hcases with h | h | h
    · have hf : (host.checkout_param (COLOR_ENABLED_PARAM ((k.val : Int) + 1))).1 ≠
          PF_Err_NONE := by rw [← h]; exact hfail
      simp only [slotErr]
      rw [if_pos hf, ← h]
    · have h1 : (host.checkout_param (COLOR_ENABLED_PARAM ((k.val : Int) + 1))).1 =
          PF_Err_NONE := by
        apply hbefore <;>
          simp only [h, COLOR_ENABLED_PARAM, COLOR_PARAM, PENCILLINE_COLOR1_ENABLED,
            PENCILLINE_COLOR1] <;> omega
      have hf : (host.checkout_param (COLOR_PARAM ((k.val : Int) + 1))).1 ≠
          PF_Err_NONE := by rw [← h]; exact hfail
      simp only [slotErr]
      rw [if_neg (not_not.2 h1), if_pos hf, ← h]
    · have h1 : (host.checkout_param (COLOR_ENABLED_PARAM ((k.val : Int) + 1))).1 =
          PF_Err_NONE := by
        apply hbefore <;>
          simp only [h, COLOR_ENABLED_PARAM, COLOR_TOLERANCE_PARAM, PENCILLINE_COLOR1_ENABLED,
            PENCILLINE_COLOR1_TOLERANCE] <;> omega
      have h2 : (host.checkout_param (COLOR_PARAM ((k.val : Int) + 1))).1 =
          PF_Err_NONE := by
        apply hbefore <;>
          simp only [h, COLOR_PARAM, COLOR_TOLERANCE_PARAM, PENCILLINE_COLOR1,
            PENCILLINE_COLOR1_TOLERANCE] <;> omega
      simp only [slotErr]
      rw [if_neg (not_not.2 h1), if_neg (not_not.2 h2), ← h]

/-! ## C8 - C10: dispatch and prepare step -/

/-- C8: the per-pixel function that `SmartRender` hands to `iterate` is a function
of the input buffer's pixel-format tag alone (the tags named in the `switch` being
distinct): `ARGB128` selects `ProcessPencilLineFloat`, `ARGB64` selects
`ProcessPencilLine16`, and `ARGB32`, `PF_PixelFormat_INVALID` and every other tag
select `ProcessPencilLine8`.  A call of `SmartRender` that reaches the `switch`
hands exactly that one function to `iterate`, and no call hands it another. -/
theorem C8_dispatch_by_format (tags : PixelFormatTags)
    (h64 : tags.PF_PixelFormat_ARGB64 ≠ tags.PF_PixelFormat_ARGB128)
    (h32 : tags.PF_PixelFormat_ARGB32 ≠ tags.PF_PixelFormat_ARGB128 ∧
      tags.PF_PixelFormat_ARGB32 ≠ tags.PF_PixelFormat_ARGB64)
    (hinv : tags.PF_PixelFormat_INVALID ≠ tags.PF_PixelFormat_ARGB128 ∧
      tags.PF_PixelFormat_INVALID ≠ tags.PF_PixelFormat_ARGB64) :
    SmartRender.dispatch tags tags.PF_PixelFormat_ARGB128 = PixelFn.ProcessPencilLineFloat ∧
    SmartRender.dispatch tags tags.PF_PixelFormat_ARGB64 = PixelFn.ProcessPencilLine16 ∧
    SmartRender.dispatch tags tags.PF_PixelFormat_ARGB32 = PixelFn.ProcessPencilLine8 ∧
    SmartRender.dispatch tags tags.PF_PixelFormat_INVALID = PixelFn.ProcessPencilLine8 ∧
    (∀ format : Int, format ≠ tags.PF_PixelFormat_ARGB128 →
      format ≠ tags.PF_PixelFormat_ARGB64 →
      SmartRender.dispatch tags format = PixelFn.ProcessPencilLine8) ∧
    (∀ host : SmartRenderHost, host.infoLocked = true →
      host.checkout_layer_pixels = (PF_Err_NONE, true) →
      host.checkout_output = (PF_Err_NONE, true) →
      host.PF_GetPixelFormat.1 = PF_Err_NONE →
      (SmartRender tags host).2 =
        some (SmartRender.dispatch tags host.PF_GetPixelFormat.2)) ∧
    (∀ (host : SmartRenderHost) (f : PixelFn), (SmartRender tags host).2 = some f →
      f = SmartRender.dispatch tags host.PF_GetPixelFormat.2) := by
  have hother : ∀ format : Int, format ≠ tags.PF_PixelFormat_ARGB128 →
      format ≠ tags.PF_PixelFormat_ARGB64 →
      SmartRender.dispatch tags format = PixelFn.ProcessPencilLine8 := by
    intro format a b
    rw [SmartRender.dispatch, if_neg a, if_neg b]
  refine ⟨?_, ?_, hother _ h32.1 h32.2, hother _ hinv.1 hinv.2, hother, ?_, ?_⟩
  · rw [SmartRender.dispatch, if_pos rfl]
  · rw [SmartRender.dispatch, if_neg h64, if_pos rfl]
  · intro host h1 h2 h3 h4
    simp [SmartRender, h1, h2, h3, h4]
  · intro host f hf
    unfold SmartRender at hf
    by_cases h1 : host.infoLocked = false
    · simp [h1] at hf
    · by_cases h2 : host.checkout_layer_pixels.1 = PF_Err_NONE ∧
          host.checkout_layer_pixels.2 = true
      · by_cases h3 : host.checkout_output.1 = PF_Err_NONE ∧ host.checkout_output.2 = true
        · by_cases h4 : host.PF_GetPixelFormat.1 = PF_Err_NONE
          · simp [h1, h2, h3, h4] at hf
            exact hf.symm
          · simp [h1, h2, h3, h4] at hf
        · simp [h1, h2, h3] at hf
      · simp [h1, h2] at hf

/-- C8 at the four-character codes of `exampleTags`. -/
theorem C8_dispatch_by_format_witness :
    (exampleTags.PF_PixelFormat_ARGB64 ≠ exampleTags.PF_PixelFormat_ARGB128 ∧
      (exampleTags.PF_PixelFormat_ARGB32 ≠ exampleTags.PF_PixelFormat_ARGB128 ∧
        exampleTags.PF_PixelFormat_ARGB32 ≠ exampleTags.PF_PixelFormat_ARGB64) ∧
      (exampleTags.PF_PixelFormat_INVALID ≠ exampleTags.PF_PixelFormat_ARGB128 ∧
        exampleTags.PF_PixelFormat_INVALID ≠ exampleTags.PF_PixelFormat_ARGB64)) ∧
    (SmartRender exampleTags exampleRenderHost).2 = some PixelFn.ProcessPencilLine16 :=
  ⟨by decide,
    ((C8_dispatch_by_format exampleTags (by decide) (by decide) (by decide)).2.2.2.2.2.1
      exampleRenderHost rfl rfl rfl rfl).trans
      (congrArg some
        (C8_dispatch_by_format exampleTags (by decide) (by decide) (by decide)).2.1)⟩

/-- C10: no entry of the set built by `PreRender` is left half-initialised.
Once the handle is allocated, whatever the outcome of the checkouts, every slot
`i` either is the entry described by the parameters of colour `i + 1` (all four
fields taken from them, the checkbox value through its conversion to the one-byte
`PF_Boolean`) or is all-zero; and when the first failing checkout is that of parameter
`m` (an index of the colour group, read for slot `k = (m - 2) / 3`), `PreRender`
returns the error of that checkout, the slots before `k` are fully set and the
slots from `k` on are all-zero, hence disabled. -/
theorem C10_no_slot_half_initialised {F D : Type} [Zero D] (cx : CXCommon F D)
    (host : PreRenderHost D) (halloc : host.host_new_handle = true) :
    ∃ info, (PreRender cx host).handle = some info ∧
      (∀ i : Fin MAX_COLORS,
        info.colors i = entryOfParams cx host i ∨ info.colors i = zeroEntry) ∧
      (∀ m : Int, 2 ≤ m → m ≤ 49 →
        (∀ j : Int, 2 ≤ j → j < m → (host.checkout_param j).1 = PF_Err_NONE) →
        (host.checkout_param m).1 ≠ PF_Err_NONE →
        (PreRender cx host).err = (host.checkout_param m).1 ∧
        ∀ i : Fin MAX_COLORS,
          ((i.val : Int) < (m - 2) / 3 → info.colors i = entryOfParams cx host i) ∧
          ((m - 2) / 3 ≤ (i.val : Int) →
            info.colors i = zeroEntry ∧ (info.colors i).enabled = 0)) := by
  obtain ⟨info, hh, hcol, _, herr⟩ := PreRender_after_loop cx host halloc
  obtain ⟨_, s2, s3, _⟩ :=
    PreRender_colorLoop_spec cx host PreRender.init rfl MAX_COLORS (le_refl _)
  refine ⟨info, hh, ?_, ?_⟩
  · intro i
    rw [hcol, s3 i]
    split
    · exact Or.inl rfl
    · exact Or.inr rfl
  · intro m hm2 hm49 hbefore hfail
    obtain ⟨hpre, hat⟩ := slotErr_of_first_failure host m hbefore hfail
    have hkb : ((m - 2) / 3).toNat < MAX_COLORS := by
      have : (MAX_COLORS : Int) = 16 := rfl
      omega
    have hkv : ((⟨((m - 2) / 3).toNat, hkb⟩ : Fin MAX_COLORS).val : Int) = (m - 2) / 3 := by
      show (((m - 2) / 3).toNat : Int) = (m - 2) / 3
      omega
    have hk := hat ⟨((m - 2) / 3).toNat, hkb⟩ hkv
    have hkne : slotErr host ⟨((m - 2) / 3).toNat, hkb⟩ ≠ PF_Err_NONE := by
      rw [hk]; exact hfail
    have hloop := s2 ⟨((m - 2) / 3).toNat, hkb⟩ hkb
      (fun j hj => hpre j (by
        have : j.val < ((m - 2) / 3).toNat := hj
        omega)) hkne
    constructor
    · rw [herr (by rw [hloop]; exact hkne), hloop, hk]
    · intro i
      constructor
      · intro hi
        rw [hcol, s3 i, if_pos ⟨i.isLt, fun j hj => hpre j (by
          have : j.val ≤ i.val := hj
          omega)⟩]
      · intro hi
        have hcond : ¬ (i.val < MAX_COLORS ∧
            ∀ j : Fin MAX_COLORS, j ≤ i → slotErr host j = PF_Err_NONE) := by
          rintro ⟨_, hall⟩
          apply hkne
          apply hall
          show ((m - 2) / 3).toNat ≤ i.val
          omega
        rw [hcol, s3 i, if_neg hcond]
        exact ⟨rfl, rfl⟩

/-- C10 at `exampleHostFailing`, whose first failing checkout is that of
parameter 9, read for slot 2: `PreRender` returns 515, slots 0 and 1 are set and
slots 2..15 are all-zero. -/
theorem C10_no_slot_half_initialised_witness :
    (exampleHostFailing.host_new_handle = true ∧
      (∀ j : Int, 2 ≤ j → j < 9 →
        (exampleHostFailing.checkout_param j).1 = PF_Err_NONE) ∧
      (exampleHostFailing.checkout_param 9).1 ≠ PF_Err_NONE) ∧
    ∃ info, (PreRender exampleCX exampleHostFailing).handle = some info ∧
      (PreRender exampleCX exampleHostFailing).err = 515 ∧
      ∀ i : Fin MAX_COLORS,
        ((i.val : Int) < 2 → info.colors i = entryOfParams exampleCX exampleHostFailing i) ∧
        (2 ≤ (i.val : Int) → info.colors i = zeroEntry ∧ (info.colors i).enabled = 0) := by
  have hbefore : ∀ j : Int, 2 ≤ j → j < 9 →
      (exampleHostFailing.checkout_param j).1 = PF_Err_NONE := by
    intro j _ h9
    have hne : j ≠ 9 := by omega
    simp [exampleHostFailing, exampleHost, hne]
  have hfail : (exampleHostFailing.checkout_param 9).1 ≠ PF_Err_NONE := by decide
  obtain ⟨info, hh, _, hfirst⟩ := C10_no_slot_half_initialised exampleCX exampleHostFailing rfl
  obtain ⟨herr, hslots⟩ := hfirst 9 (by decide) (by decide) hbefore hfail
  exact ⟨⟨rfl, hbefore, hfail⟩, info, hh, herr, hslots⟩

/-! ## C11: allocation failure -/

/-- C11: when the allocation of the handle fails (`host_new_handle` returns null),
`PreRender` returns `PF_Err_OUT_OF_MEMORY` and does nothing else: it checks out no
parameter, does not call `checkout_layer`, leaves no handle, hence no target set,
and does not set `pre_render_data`. -/
theorem C11_allocation_failure {F D : Type} [Zero D] (cx : CXCommon F D)
    (host : PreRenderHost D) (halloc : host.host_new_handle = false) :
    (PreRender cx host).err = PF_Err_OUT_OF_MEMORY ∧
    (PreRender cx host).checkouts = [] ∧
    (PreRender cx host).layerRequested = false ∧
    (PreRender cx host).handle = none ∧
    (PreRender cx host).pre_render_data = false := by
  simp [PreRender, halloc]

/-- C11 at `exampleHostNoMemory`. -/
theorem C11_allocation_failure_witness :
    exampleHostNoMemory.host_new_handle = false ∧
    ((PreRender exampleCX exampleHostNoMemory).err = PF_Err_OUT_OF_MEMORY ∧
    (PreRender exampleCX exampleHostNoMemory).checkouts = [] ∧
    (PreRender exampleCX exampleHostNoMemory).layerRequested = false ∧
    (PreRender exampleCX exampleHostNoMemory).handle = none ∧
    (PreRender exampleCX exampleHostNoMemory).pre_render_data = false) :=
  ⟨rfl, C11_allocation_failure exampleCX exampleHostNoMemory rfl⟩

/-! ## C19: rectangle union -/

/-- The four coordinates that `CX_UnionLRect` leaves in `*dst`. -/
theorem CX_UnionLRect_eq (src dst : PF_LRect) :
    CX_UnionLRect src dst =
      { left := min src.left dst.left, top := min src.top dst.top,
        right := max src.right dst.right, bottom := max src.bottom dst.bottom } := by
  obtain ⟨sl, st, sr, sb⟩ := src
  obtain ⟨dl, dt, dr, db⟩ := dst
  simp only [CX_UnionLRect, gt_iff_lt]
  by_cases h1 : sl < dl <;> by_cases h2 : st < dt <;> by_cases h3 : dr < sr <;>
    by_cases h4 : db < sb <;>
    simp only [h1, h2, h3, h4, if_true, if_false, PF_LRect.mk.injEq] <;>
    refine ⟨?_, ?_, ?_, ?_⟩ <;> omega

/-- C19: `CX_UnionLRect(src, dst)` replaces `dst` by the bounding box of the two
rectangles (`src` is an input only): the new `dst` has `left = min`, `top = min`,
`right = max` and `bottom = max` of the two; hence it contains both inputs, the
operation is idempotent (applying it again with the same `src` changes nothing),
and the result does not depend on which of the two rectangles is passed as
`src`. -/
theorem C19_union_rect (src dst : PF_LRect) :
    (CX_UnionLRect src dst).left = min src.left dst.left ∧
    (CX_UnionLRect src dst).top = min src.top dst.top ∧
    (CX_UnionLRect src dst).right = max src.right dst.right ∧
    (CX_UnionLRect src dst).bottom = max src.bottom dst.bottom ∧
    ((CX_UnionLRect src dst).left ≤ src.left ∧ (CX_UnionLRect src dst).left ≤ dst.left ∧
      (CX_UnionLRect src dst).top ≤ src.top ∧ (CX_UnionLRect src dst).top ≤ dst.top ∧
      src.right ≤ (CX_UnionLRect src dst).right ∧
      dst.right ≤ (CX_UnionLRect src dst).right ∧
      src.bottom ≤ (CX_UnionLRect src dst).bottom ∧
      dst.bottom ≤ (CX_UnionLRect src dst).bottom) ∧
    CX_UnionLRect src (CX_UnionLRect src dst) = CX_UnionLRect src dst ∧
    CX_UnionLRect src dst = CX_UnionLRect dst src := by
  simp only [CX_UnionLRect_eq, PF_LRect.mk.injEq]
  refine ⟨trivial, trivial, trivial, trivial, ⟨?_, ?_, ?_, ?_, ?_, ?_, ?_, ?_⟩, ⟨?_, ?_, ?_, ?_⟩,
    ⟨?_, ?_, ?_, ?_⟩⟩ <;> omega

/-! ## C18: `LINE_ONLY` and `BG_ONLY` are complementary -/

/-- The outputs of `ProcessPencilLine8` in the modes `LINE_ONLY` and `BG_ONLY`
of one and the same target set, once the verdict is known. -/
theorem ProcessPencilLine8_line_bg {F D : Type} (cx : CXCommon F D)
    (info : PencilLineInfo D) (x y : Int) (inP outP : PF_Pixel8) (m : Bool)
    (hm : IsTargetColor8 cx inP info = some m) :
    ProcessPencilLine8 cx { info with outputMode := OUTPUT_MODE_LINE_ONLY } x y inP outP =
      some (PF_Err_NONE,
        if m then inP else { alpha := 0, red := 0, green := 0, blue := 0 }) ∧
    ProcessPencilLine8 cx { info with outputMode := OUTPUT_MODE_BG_ONLY } x y inP outP =
      some (PF_Err_NONE,
        if m then { alpha := 0, red := 0, green := 0, blue := 0 } else inP) := by
  have hL : IsTargetColor8 cx inP { info with outputMode := OUTPUT_MODE_LINE_ONLY } =
      some m := by
    rw [← hm]
    exact IsTargetColor8_congr cx inP _ _ rfl (fun _ => rfl) (fun _ _ => ⟨rfl, rfl⟩)
  have hB : IsTargetColor8 cx inP { info with outputMode := OUTPUT_MODE_BG_ONLY } =
      some m := by
    rw [← hm]
    exact IsTargetColor8_congr cx inP _ _ rfl (fun _ => rfl) (fun _ _ => ⟨rfl, rfl⟩)
  rw [ProcessPencilLine8_of_verdict cx _ x y inP outP m hL,
    ProcessPencilLine8_of_verdict cx _ x y inP outP m hB]
  simp [OUTPUT_MODE_LINE_ONLY, OUTPUT_MODE_BG_ONLY]

/-- The outputs of `ProcessPencilLine16` in the modes `LINE_ONLY` and `BG_ONLY`
of one and the same target set, once the verdict is known. -/
theorem ProcessPencilLine16_line_bg {F D : Type} (cx : CXCommon F D)
    (info : PencilLineInfo D) (x y : Int) (inP outP : PF_Pixel16) (m : Bool)
    (hm : IsTargetColor16 cx inP info = some m) :
    ProcessPencilLine16 cx { info with outputMode := OUTPUT_MODE_LINE_ONLY } x y inP outP =
      some (PF_Err_NONE,
        if m then inP else { alpha := 0, red := 0, green := 0, blue := 0 }) ∧
    ProcessPencilLine16 cx { info with outputMode := OUTPUT_MODE_BG_ONLY } x y inP outP =
      some (PF_Err_NONE,
        if m then { alpha := 0, red := 0, green := 0, blue := 0 } else inP) := by
  have hL : IsTargetColor16 cx inP { info with outputMode := OUTPUT_MODE_LINE_ONLY } =
      some m := by
    rw [← hm]
    exact IsTargetColor16_congr cx inP _ _ rfl (fun _ => rfl) (fun _ _ => ⟨rfl, rfl⟩)
  have hB : IsTargetColor16 cx inP { info with outputMode := OUTPUT_MODE_BG_ONLY } =
      some m := by
    rw [← hm]
    exact IsTargetColor16_congr cx inP _ _ rfl (fun _ => rfl) (fun _ _ => ⟨rfl, rfl⟩)
  rw [ProcessPencilLine16_of_verdict cx _ x y inP outP m hL,
    ProcessPencilLine16_of_verdict cx _ x y inP outP m hB]
  simp [OUTPUT_MODE_LINE_ONLY, OUTPUT_MODE_BG_ONLY]

/-- The outputs of `ProcessPencilLineFloat` in the modes `LINE_ONLY` and `BG_ONLY`
of one and the same target set, once the verdict is known. -/
theorem ProcessPencilLineFloat_line_bg {F D : Type} [Zero F] (cx : CXCommon F D)
    (info : PencilLineInfo D) (x y : Int) (inP outP : PF_PixelFloat F) (m : Bool)
    (hm : IsTargetColorFloat cx inP info = some m) :
    ProcessPencilLineFloat cx { info with outputMode := OUTPUT_MODE_LINE_ONLY } x y inP outP =
      some (PF_Err_NONE,
        if m then inP else { alpha := 0, red := 0, green := 0, blue := 0 }) ∧
    ProcessPencilLineFloat cx { info with outputMode := OUTPUT_MODE_BG_ONLY } x y inP outP =
      some (PF_Err_NONE,
        if m then { alpha := 0, red := 0, green := 0, blue := 0 } else inP) := by
  have hL : IsTargetColorFloat cx inP { info with outputMode := OUTPUT_MODE_LINE_ONLY } =
      some m := by
    rw [← hm]
    exact IsTargetColorFloat_congr cx inP _ _ rfl (fun _ => rfl) (fun _ _ => ⟨rfl, rfl⟩)
  have hB : IsTargetColorFloat cx inP { info with outputMode := OUTPUT_MODE_BG_ONLY } =
      some m := by
    rw [← hm]
    exact IsTargetColorFloat_congr cx inP _ _ rfl (fun _ => rfl) (fun _ _ => ⟨rfl, rfl⟩)
  rw [ProcessPencilLineFloat_of_verdict cx _ x y inP outP m hL,
    ProcessPencilLineFloat_of_verdict cx _ x y inP outP m hB]
  simp [OUTPUT_MODE_LINE_ONLY, OUTPUT_MODE_BG_ONLY]

/-- C18, as the code has it: `LINE_ONLY` and `BG_ONLY` are complementary.  For
every target set with `colorCount ≤ 16`, every pixel `P` and every `(x, y)`, and
for each of `ProcessPencilLine8/16/Float`: when `P` matches, the `LINE_ONLY` output
is `P` and the `BG_ONLY` output is the all-zero pixel, and when it does not match
it is the other way round; so one of the two outputs is `P` and the other is
all-zero, exactly one of them is `P` when `P` is not all-zero, and both are `P`
when `P` is all-zero.  Consequently the output in every mode is `P` or the
all-zero pixel, and for the 8-bit and the 16-bit function the `LINE_ONLY` output
plus the `BG_ONLY` output is `P` in every channel.  Of the float function no sum
is stated: of the two channel values one is that of `P` and the other is zero. -/
theorem C18_line_bg_complementary {F D : Type} [Zero F] (cx : CXCommon F D)
    (info : PencilLineInfo D) (hcount : info.colorCount ≤ MAX_COLORS) (x y : Int)
    (in8 out8 : PF_Pixel8) (in16 out16 : PF_Pixel16) (inF outF : PF_PixelFloat F) :
    (∃ m l b o, IsTargetColor8 cx in8 info = some m ∧
      ProcessPencilLine8 cx { info with outputMode := OUTPUT_MODE_LINE_ONLY } x y in8 out8 =
        some (PF_Err_NONE, l) ∧
      ProcessPencilLine8 cx { info with outputMode := OUTPUT_MODE_BG_ONLY } x y in8 out8 =
        some (PF_Err_NONE, b) ∧
      ProcessPencilLine8 cx info x y in8 out8 = some (PF_Err_NONE, o) ∧
      (m = true → l = in8 ∧ b = { alpha := 0, red := 0, green := 0, blue := 0 }) ∧
      (m = false → l = { alpha := 0, red := 0, green := 0, blue := 0 } ∧ b = in8) ∧
      (in8 ≠ { alpha := 0, red := 0, green := 0, blue := 0 } →
        (l = in8 ∧ b ≠ in8) ∨ (l ≠ in8 ∧ b = in8)) ∧
      (in8 = { alpha := 0, red := 0, green := 0, blue := 0 } → l = in8 ∧ b = in8) ∧
      (o = in8 ∨ o = { alpha := 0, red := 0, green := 0, blue := 0 }) ∧
      l.alpha + b.alpha = in8.alpha ∧ l.red + b.red = in8.red ∧
      l.green + b.green = in8.green ∧ l.blue + b.blue = in8.blue) ∧
    (∃ m l b o, IsTargetColor16 cx in16 info = some m ∧
      ProcessPencilLine16 cx { info with outputMode := OUTPUT_MODE_LINE_ONLY } x y in16 out16 =
        some (PF_Err_NONE, l) ∧
      ProcessPencilLine16 cx { info with outputMode := OUTPUT_MODE_BG_ONLY } x y in16 out16 =
        some (PF_Err_NONE, b) ∧
      ProcessPencilLine16 cx info x y in16 out16 = some (PF_Err_NONE, o) ∧
      (m = true → l = in16 ∧ b = { alpha := 0, red := 0, green := 0, blue := 0 }) ∧
      (m = false → l = { alpha := 0, red := 0, green := 0, blue := 0 } ∧ b = in16) ∧
      (in16 ≠ { alpha := 0, red := 0, green := 0, blue := 0 } →
        (l = in16 ∧ b ≠ in16) ∨ (l ≠ in16 ∧ b = in16)) ∧
      (in16 = { alpha := 0, red := 0, green := 0, blue := 0 } → l = in16 ∧ b = in16) ∧
      (o = in16 ∨ o = { alpha := 0, red := 0, green := 0, blue := 0 }) ∧
      l.alpha + b.alpha = in16.alpha ∧ l.red + b.red = in16.red ∧
      l.green + b.green = in16.green ∧ l.blue + b.blue = in16.blue) ∧
    (∃ m l b o, IsTargetColorFloat cx inF info = some m ∧
      ProcessPencilLineFloat cx { info with outputMode := OUTPUT_MODE_LINE_ONLY } x y inF outF =
        some (PF_Err_NONE, l) ∧
      ProcessPencilLineFloat cx { info with outputMode := OUTPUT_MODE_BG_ONLY } x y inF outF =
        some (PF_Err_NONE, b) ∧
      ProcessPencilLineFloat cx info x y inF outF = some (PF_Err_NONE, o) ∧
      (m = true → l = inF ∧ b = { alpha := 0, red := 0, green := 0, blue := 0 }) ∧
      (m = false → l = { alpha := 0, red := 0, green := 0, blue := 0 } ∧ b = inF) ∧
      (inF ≠ { alpha := 0, red := 0, green := 0, blue := 0 } →
        (l = inF ∧ b ≠ inF) ∨ (l ≠ inF ∧ b = inF)) ∧
      (inF = { alpha := 0, red := 0, green := 0, blue := 0 } → l = inF ∧ b = inF) ∧
      (o = inF ∨ o = { alpha := 0, red := 0, green := 0, blue := 0 })) := by
  refine ⟨?_, ?_, ?_⟩
  · obtain ⟨hl, hb⟩ := ProcessPencilLine8_line_bg cx info x y in8 out8 _
      (IsTargetColor8_eq cx in8 info hcount)
    refine ⟨_, _, _, _, IsTargetColor8_eq cx in8 info hcount, hl, hb,
      ProcessPencilLine8_of_verdict cx info x y in8 out8 _
        (IsTargetColor8_eq cx in8 info hcount), ?_⟩
    generalize (decide (∃ j : Fin MAX_COLORS, (j.val : Int) < info.colorCount ∧
      (info.colors j).enabled ≠ 0 ∧
      cx.CX_IsTargetColor8 in8 (info.colors j).color.red (info.colors j).color.green
        (info.colors j).color.blue (info.colors j).toleranceSq = true)) = m
    cases m
    · refine ⟨by simp, by simp, fun hne => Or.inr ⟨by simpa using Ne.symm hne, by simp⟩,
        fun h => by simp [h], ?_, by simp, by simp, by simp, by simp⟩
      by_cases h2 : info.outputMode = OUTPUT_MODE_LINE_ONLY
      · rw [if_pos h2]; simp
      · rw [if_neg h2]
        by_cases h3 : info.outputMode = OUTPUT_MODE_BG_ONLY
        · rw [if_pos h3]; simp
        · rw [if_neg h3]; simp
    · refine ⟨by simp, by simp, fun hne => Or.inl ⟨by simp, by simpa using Ne.symm hne⟩,
        fun h => by simp [h], ?_, by simp, by simp, by simp, by simp⟩
      by_cases h2 : info.outputMode = OUTPUT_MODE_LINE_ONLY
      · rw [if_pos h2]; simp
      · rw [if_neg h2]
        by_cases h3 : info.outputMode = OUTPUT_MODE_BG_ONLY
        · rw [if_pos h3]; simp
        · rw [if_neg h3]; simp
  · obtain ⟨hl, hb⟩ := ProcessPencilLine16_line_bg cx info x y in16 out16 _
      (IsTargetColor16_eq cx in16 info hcount)
    refine ⟨_, _, _, _, IsTargetColor16_eq cx in16 info hcount, hl, hb,
      ProcessPencilLine16_of_verdict cx info x y in16 out16 _
        (IsTargetColor16_eq cx in16 info hcount), ?_⟩
    generalize (decide (∃ j : Fin MAX_COLORS, (j.val : Int) < info.colorCount ∧
      (info.colors j).enabled ≠ 0 ∧
      cx.CX_IsTargetColor16 in16 (info.colors j).color.red (info.colors j).color.green
        (info.colors j).color.blue (info.colors j).toleranceSq = true)) = m
    cases m
    · refine ⟨by simp, by simp, fun hne => Or.inr ⟨by simpa using Ne.symm hne, by simp⟩,
        fun h => by simp [h], ?_, by simp, by simp, by simp, by simp⟩
      by_cases h2 : info.outputMode = OUTPUT_MODE_LINE_ONLY
      · rw [if_pos h2]; simp
      · rw [if_neg h2]
        by_cases h3 : info.outputMode = OUTPUT_MODE_BG_ONLY
        · rw [if_pos h3]; simp
        · rw [if_neg h3]; simp
    · refine ⟨by simp, by simp, fun hne => Or.inl ⟨by simp, by simpa using Ne.symm hne⟩,
        fun h => by simp [h], ?_, by simp, by simp, by simp, by simp⟩
      by_cases h2 : info.outputMode = OUTPUT_MODE_LINE_ONLY
      · rw [if_pos h2]; simp
      · rw [if_neg h2]
        by_cases h3 : info.outputMode = OUTPUT_MODE_BG_ONLY
        · rw [if_pos h3]; simp
        · rw [if_neg h3]; simp
  · obtain ⟨hl, hb⟩ := ProcessPencilLineFloat_line_bg cx info x y inF outF _
      (IsTargetColorFloat_eq cx inF info hcount)
    refine ⟨_, _, _, _, IsTargetColorFloat_eq cx inF info hcount, hl, hb,
      ProcessPencilLineFloat_of_verdict cx info x y inF outF _
        (IsTargetColorFloat_eq cx inF info hcount), ?_⟩
    generalize (decide (∃ j : Fin MAX_COLORS, (j.val : Int) < info.colorCount ∧
      (info.colors j).enabled ≠ 0 ∧
      cx.CX_IsTargetColorFloat inF (info.colors j).color.red (info.colors j).color.green
        (info.colors j).color.blue (info.colors j).toleranceSq = true)) = m
    cases m
    · refine ⟨by simp, by simp, fun hne => Or.inr ⟨by simpa using Ne.symm hne, by simp⟩,
        fun h => by simp [h], ?_⟩
      by_cases h2 : info.outputMode = OUTPUT_MODE_LINE_ONLY
      · rw [if_pos h2]; simp
      · rw [if_neg h2]
        by_cases h3 : info.outputMode = OUTPUT_MODE_BG_ONLY
        · rw [if_pos h3]; simp
        · rw [if_neg h3]; simp
    · refine ⟨by simp, by simp, fun hne => Or.inl ⟨by simp, by simpa using Ne.symm hne⟩,
        fun h => by simp [h], ?_⟩
      by_cases h2 : info.outputMode = OUTPUT_MODE_LINE_ONLY
      · rw [if_pos h2]; simp
      · rw [if_neg h2]
        by_cases h3 : info.outputMode = OUTPUT_MODE_BG_ONLY
        · rw [if_pos h3]; simp
        · rw [if_neg h3]; simp

/-- C18 at `exampleInfo`, coordinates (3, 4): the 8-bit and the float pixel match,
the 16-bit pixel does not. -/
theorem C18_line_bg_complementary_witness :
    exampleInfo.colorCount ≤ MAX_COLORS ∧
    ((∃ m l b o, IsTargetColor8 exampleCX examplePixel8 exampleInfo = some m ∧
      ProcessPencilLine8 exampleCX { exampleInfo with outputMode := OUTPUT_MODE_LINE_ONLY } 3 4 examplePixel8 examplePixel8 =
        some (PF_Err_NONE, l) ∧
      ProcessPencilLine8 exampleCX { exampleInfo with outputMode := OUTPUT_MODE_BG_ONLY } 3 4 examplePixel8 examplePixel8 =
        some (PF_Err_NONE, b) ∧
      ProcessPencilLine8 exampleCX exampleInfo 3 4 examplePixel8 examplePixel8 = some (PF_Err_NONE, o) ∧
      (m = true → l = examplePixel8 ∧ b = { alpha := 0, red := 0, green := 0, blue := 0 }) ∧
      (m = false → l = { alpha := 0, red := 0, green := 0, blue := 0 } ∧ b = examplePixel8) ∧
      (examplePixel8 ≠ { alpha := 0, red := 0, green := 0, blue := 0 } →
        (l = examplePixel8 ∧ b ≠ examplePixel8) ∨ (l ≠ examplePixel8 ∧ b = examplePixel8)) ∧
      (examplePixel8 = { alpha := 0, red := 0, green := 0, blue := 0 } → l = examplePixel8 ∧ b = examplePixel8) ∧
      (o = examplePixel8 ∨ o = { alpha := 0, red := 0, green := 0, blue := 0 }) ∧
      l.alpha + b.alpha = examplePixel8.alpha ∧ l.red + b.red = examplePixel8.red ∧
      l.green + b.green = examplePixel8.green ∧ l.blue + b.blue = examplePixel8.blue) ∧
    (∃ m l b o, IsTargetColor16 exampleCX examplePixel16 exampleInfo = some m ∧
      ProcessPencilLine16 exampleCX { exampleInfo with outputMode := OUTPUT_MODE_LINE_ONLY } 3 4 examplePixel16 examplePixel16 =
        some (PF_Err_NONE, l) ∧
      ProcessPencilLine16 exampleCX { exampleInfo with outputMode := OUTPUT_MODE_BG_ONLY } 3 4 examplePixel16 examplePixel16 =
        some (PF_Err_NONE, b) ∧
      ProcessPencilLine16 exampleCX exampleInfo 3 4 examplePixel16 examplePixel16 = some (PF_Err_NONE, o) ∧
      (m = true → l = examplePixel16 ∧ b = { alpha := 0, red := 0, green := 0, blue := 0 }) ∧
      (m = false → l = { alpha := 0, red := 0, green := 0, blue := 0 } ∧ b = examplePixel16) ∧
      (examplePixel16 ≠ { alpha := 0, red := 0, green := 0, blue := 0 } →
        (l = examplePixel16 ∧ b ≠ examplePixel16) ∨ (l ≠ examplePixel16 ∧ b = examplePixel16)) ∧
      (examplePixel16 = { alpha := 0, red := 0, green := 0, blue := 0 } → l = examplePixel16 ∧ b = examplePixel16) ∧
      (o = examplePixel16 ∨ o = { alpha := 0, red := 0, green := 0, blue := 0 }) ∧
      l.alpha + b.alpha = examplePixel16.alpha ∧ l.red + b.red = examplePixel16.red ∧
      l.green + b.green = examplePixel16.green ∧ l.blue + b.blue = examplePixel16.blue) ∧
    (∃ m l b o, IsTargetColorFloat exampleCX examplePixelFloat exampleInfo = some m ∧
      ProcessPencilLineFloat exampleCX { exampleInfo with outputMode := OUTPUT_MODE_LINE_ONLY } 3 4 examplePixelFloat examplePixelFloat =
        some (PF_Err_NONE, l) ∧
      ProcessPencilLineFloat exampleCX { exampleInfo with outputMode := OUTPUT_MODE_BG_ONLY } 3 4 examplePixelFloat examplePixelFloat =
        some (PF_Err_NONE, b) ∧
      ProcessPencilLineFloat exampleCX exampleInfo 3 4 examplePixelFloat examplePixelFloat = some (PF_Err_NONE, o) ∧
      (m = true → l = examplePixelFloat ∧ b = { alpha := 0, red := 0, green := 0, blue := 0 }) ∧
      (m = false → l = { alpha := 0, red := 0, green := 0, blue := 0 } ∧ b = examplePixelFloat) ∧
      (examplePixelFloat ≠ { alpha := 0, red := 0, green := 0, blue := 0 } →
        (l = examplePixelFloat ∧ b ≠ examplePixelFloat) ∨ (l ≠ examplePixelFloat ∧ b = examplePixelFloat)) ∧
      (examplePixelFloat = { alpha := 0, red := 0, green := 0, blue := 0 } → l = examplePixelFloat ∧ b = examplePixelFloat) ∧
      (o = examplePixelFloat ∨ o = { alpha := 0, red := 0, green := 0, blue := 0 }))) :=
  ⟨by decide, C18_line_bg_complementary exampleCX exampleInfo (by decide) 3 4
    examplePixel8 examplePixel8 examplePixel16 examplePixel16
    examplePixelFloat examplePixelFloat⟩

/-- C18 fails as stated for the all-zero pixel: with the target set of `exampleInfo`
and the input pixel transparent black, the `LINE_ONLY` output and the `BG_ONLY`
output of `ProcessPencilLine8` are both the source pixel, so it is not the case
that exactly one of the two is. -/
theorem C18_both_outputs_are_the_source :
    ∃ l b,
      ProcessPencilLine8 exampleCX { exampleInfo with outputMode := OUTPUT_MODE_LINE_ONLY }
        3 4 { alpha := 0, red := 0, green := 0, blue := 0 } examplePixel8 =
        some (PF_Err_NONE, l) ∧
      ProcessPencilLine8 exampleCX { exampleInfo with outputMode := OUTPUT_MODE_BG_ONLY }
        3 4 { alpha := 0, red := 0, green := 0, blue := 0 } examplePixel8 =
        some (PF_Err_NONE, b) ∧
      l = { alpha := 0, red := 0, green := 0, blue := 0 } ∧
      b = { alpha := 0, red := 0, green := 0, blue := 0 } ∧
      ¬ ((l = { alpha := 0, red := 0, green := 0, blue := 0 } ∧
            b ≠ { alpha := 0, red := 0, green := 0, blue := 0 }) ∨
          (l ≠ { alpha := 0, red := 0, green := 0, blue := 0 } ∧
            b = { alpha := 0, red := 0, green := 0, blue := 0 })) :=
  ⟨{ alpha := 0, red := 0, green := 0, blue := 0 },
    { alpha := 0, red := 0, green := 0, blue := 0 }, by decide, by decide, rfl, rfl,
    by decide⟩

/-! ## C17: the parameter indices -/

/-- A call of `PF_UpdateParamUI` reads nothing of `params[]`. -/
theorem UpdateParameterUI_update_reads (suite : Int → UIParamDef → PF_Err)
    (st : UpdateUIState) (index : Int) (paramCopy : UIParamDef) :
    (UpdateParameterUI.update suite st index paramCopy).reads = st.reads := by
  unfold UpdateParameterUI.update
  split <;> rfl

/-- The subscripts read by one iteration of the loop of `UpdateParameterUI`. -/
theorem UpdateParameterUI_body_reads (suite : Int → UIParamDef → PF_Err)
    (params : Int → UIParamDef) (i : Int) (st : UpdateUIState) :
    (UpdateParameterUI.body suite params i st).reads =
      st.reads ++ [COLOR_ENABLED_PARAM i, COLOR_PARAM i, COLOR_TOLERANCE_PARAM i] := by
  unfold UpdateParameterUI.body
  simp [UpdateParameterUI_update_reads]

/-- Every subscript read by the first `n` iterations of `UpdateParameterUI` is a
macro value of some colour number in `1..n`. -/
theorem UpdateParameterUI_loop_reads (suite : Int → UIParamDef → PF_Err)
    (params : Int → UIParamDef) (n : Nat) :
    ∀ idx ∈ (UpdateParameterUI.loop suite params n).reads,
      ∃ k : Int, 1 ≤ k ∧ k ≤ (n : Int) ∧
        (idx = COLOR_ENABLED_PARAM k ∨ idx = COLOR_PARAM k ∨ idx = COLOR_TOLERANCE_PARAM k) := by
  induction n with
  | zero =>
    intro idx hidx
    simp [UpdateParameterUI.loop] at hidx
  | succ n ih =>
    intro idx hidx
    rw [UpdateParameterUI.loop, UpdateParameterUI_body_reads, List.mem_append] at hidx
    rcases hidx with hold | hnew
    · obtain ⟨k, h1, h2, h3⟩ := ih idx hold
      exact ⟨k, h1, by push_cast; omega, h3⟩
    · refine ⟨(n : Int) + 1, by omega, by push_cast; omega, ?_⟩
      simpa using hnew

/-- The indices checked out by one iteration of the colour loop of `PreRender`. -/
theorem PreRender_body_checkouts {F D : Type} [Zero D] (cx : CXCommon F D)
    (host : PreRenderHost D) (i : Fin MAX_COLORS) (st : PreRenderState D) :
    ∀ idx ∈ (PreRender.body cx host i st).checkouts,
      idx ∈ st.checkouts ∨ idx = COLOR_ENABLED_PARAM ((i : Int) + 1) ∨
        idx = COLOR_PARAM ((i : Int) + 1) ∨ idx = COLOR_TOLERANCE_PARAM ((i : Int) + 1) := by
  intro idx hidx
  unfold PreRender.body PreRender.checkout at hidx
  by_cases h : st.err = PF_Err_NONE <;>
  by_cases h1 : (host.checkout_param (COLOR_ENABLED_PARAM ((i : Int) + 1))).1 = PF_Err_NONE <;>
  by_cases h2 : (host.checkout_param (COLOR_PARAM ((i : Int) + 1))).1 = PF_Err_NONE <;>
  by_cases h3 : (host.checkout_param (COLOR_TOLERANCE_PARAM ((i : Int) + 1))).1 = PF_Err_NONE <;>
  simp [h, h1, h2, h3] at hidx <;> tauto

/-- Every index checked out by the first `n` iterations of the colour loop of
`PreRender` is a macro value of some colour number in `1..16`. -/
theorem PreRender_colorLoop_checkouts {F D : Type} [Zero D] (cx : CXCommon F D)
    (host : PreRenderHost D) (n : Nat) :
    ∀ idx ∈ (PreRender.colorLoop cx host PreRender.init n).checkouts,
      ∃ k : Int, 1 ≤ k ∧ k ≤ 16 ∧
        (idx = COLOR_ENABLED_PARAM k ∨ idx = COLOR_PARAM k ∨ idx = COLOR_TOLERANCE_PARAM k) := by
  induction n with
  | zero =>
    intro idx hidx
    simp [PreRender.colorLoop, PreRender.init] at hidx
  | succ n ih =>
    intro idx hidx
    rw [PreRender.colorLoop] at hidx
    by_cases hlt : n < MAX_COLORS
    · rw [dif_pos hlt] at hidx
      rcases PreRender_body_checkouts cx host ⟨n, hlt⟩ _ idx hidx with hold | hnew
      · exact ih idx hold
      · have h16 : MAX_COLORS = 16 := rfl
        exact ⟨(n : Int) + 1, by omega, by omega, hnew⟩
    · rw [dif_neg hlt] at hidx
      exact ih idx hidx

set_option maxRecDepth 100000 in
/-- C17: the parameter-index macros agree with the parameter enumeration: for
`n = 1, ..., 16`, `COLOR_ENABLED_PARAM(n)`, `COLOR_PARAM(n)` and
`COLOR_TOLERANCE_PARAM(n)` are the enumerators `PENCILLINE_COLORn_ENABLED`,
`PENCILLINE_COLORn` and `PENCILLINE_COLORn_TOLERANCE`, that is `3n - 1`, `3n` and
`3n + 1`; the 48 indices are pairwise distinct and lie strictly between
`PENCILLINE_COLOR_GROUP` (1) and `PENCILLINE_COLOR_GROUP_END` (50), hence below
`PENCILLINE_NUM_PARAMS` (59).  So every parameter that the colour loop of
`PreRender` checks out through the macros, and every subscript at which
`UpdateParameterUI` reads `params[]`, lies inside the colour group and below
`PENCILLINE_NUM_PARAMS`. -/
theorem C17_parameter_indices {F D : Type} [Zero D] (cx : CXCommon F D)
    (host : PreRenderHost D) (suite : Int → UIParamDef → PF_Err)
    (params : Int → UIParamDef) :
    (List.map (fun n : Nat => COLOR_ENABLED_PARAM ((n : Int) + 1)) (List.range 16) =
        [PENCILLINE_COLOR1_ENABLED, PENCILLINE_COLOR2_ENABLED,
         PENCILLINE_COLOR3_ENABLED, PENCILLINE_COLOR4_ENABLED,
         PENCILLINE_COLOR5_ENABLED, PENCILLINE_COLOR6_ENABLED,
         PENCILLINE_COLOR7_ENABLED, PENCILLINE_COLOR8_ENABLED,
         PENCILLINE_COLOR9_ENABLED, PENCILLINE_COLOR10_ENABLED,
         PENCILLINE_COLOR11_ENABLED, PENCILLINE_COLOR12_ENABLED,
         PENCILLINE_COLOR13_ENABLED, PENCILLINE_COLOR14_ENABLED,
         PENCILLINE_COLOR15_ENABLED, PENCILLINE_COLOR16_ENABLED] ∧
      List.map (fun n : Nat => COLOR_PARAM ((n : Int) + 1)) (List.range 16) =
        [PENCILLINE_COLOR1, PENCILLINE_COLOR2, PENCILLINE_COLOR3, PENCILLINE_COLOR4,
         PENCILLINE_COLOR5, PENCILLINE_COLOR6, PENCILLINE_COLOR7, PENCILLINE_COLOR8,
         PENCILLINE_COLOR9, PENCILLINE_COLOR10, PENCILLINE_COLOR11, PENCILLINE_COLOR12,
         PENCILLINE_COLOR13, PENCILLINE_COLOR14, PENCILLINE_COLOR15, PENCILLINE_COLOR16] ∧
      List.map (fun n : Nat => COLOR_TOLERANCE_PARAM ((n : Int) + 1)) (List.range 16) =
        [PENCILLINE_COLOR1_TOLERANCE, PENCILLINE_COLOR2_TOLERANCE,
         PENCILLINE_COLOR3_TOLERANCE, PENCILLINE_COLOR4_TOLERANCE,
         PENCILLINE_COLOR5_TOLERANCE, PENCILLINE_COLOR6_TOLERANCE,
         PENCILLINE_COLOR7_TOLERANCE, PENCILLINE_COLOR8_TOLERANCE,
         PENCILLINE_COLOR9_TOLERANCE, PENCILLINE_COLOR10_TOLERANCE,
         PENCILLINE_COLOR11_TOLERANCE, PENCILLINE_COLOR12_TOLERANCE,
         PENCILLINE_COLOR13_TOLERANCE, PENCILLINE_COLOR14_TOLERANCE,
         PENCILLINE_COLOR15_TOLERANCE, PENCILLINE_COLOR16_TOLERANCE]) ∧
    (∀ n : Int, COLOR_ENABLED_PARAM n = 3 * n - 1 ∧ COLOR_PARAM n = 3 * n ∧
      COLOR_TOLERANCE_PARAM n = 3 * n + 1) ∧
    (List.map (fun n : Nat => COLOR_ENABLED_PARAM ((n : Int) + 1)) (List.range 16) ++
      List.map (fun n : Nat => COLOR_PARAM ((n : Int) + 1)) (List.range 16) ++
      List.map (fun n : Nat => COLOR_TOLERANCE_PARAM ((n : Int) + 1)) (List.range 16)).Nodup ∧
    (PENCILLINE_COLOR_GROUP = 1 ∧ PENCILLINE_COLOR_GROUP_END = 50 ∧
      PENCILLINE_COLOR_GROUP_END = PENCILLINE_COLOR16_TOLERANCE + 1 ∧
      PENCILLINE_NUM_PARAMS = 59) ∧
    (∀ n : Int, 1 ≤ n → n ≤ 16 →
      (PENCILLINE_COLOR_GROUP < COLOR_ENABLED_PARAM n ∧
        COLOR_ENABLED_PARAM n < PENCILLINE_COLOR_GROUP_END) ∧
      (PENCILLINE_COLOR_GROUP < COLOR_PARAM n ∧
        COLOR_PARAM n < PENCILLINE_COLOR_GROUP_END) ∧
      (PENCILLINE_COLOR_GROUP < COLOR_TOLERANCE_PARAM n ∧
        COLOR_TOLERANCE_PARAM n < PENCILLINE_COLOR_GROUP_END) ∧
      PENCILLINE_COLOR_GROUP_END < PENCILLINE_NUM_PARAMS) ∧
    (∀ idx ∈ (PreRender.colorLoop cx host PreRender.init MAX_COLORS).checkouts,
      PENCILLINE_COLOR_GROUP < idx ∧ idx < PENCILLINE_COLOR_GROUP_END ∧
      idx < PENCILLINE_NUM_PARAMS) ∧
    (∀ idx ∈ (UpdateParameterUI suite params).reads,
      PENCILLINE_COLOR_GROUP < idx ∧ idx < PENCILLINE_COLOR_GROUP_END ∧
      idx < PENCILLINE_NUM_PARAMS) := by
  have hmacro : ∀ n : Int, COLOR_ENABLED_PARAM n = 3 * n - 1 ∧ COLOR_PARAM n = 3 * n ∧
      COLOR_TOLERANCE_PARAM n = 3 * n + 1 := by
    intro n
    simp only [COLOR_ENABLED_PARAM, COLOR_PARAM, COLOR_TOLERANCE_PARAM,
      PENCILLINE_COLOR1_ENABLED, PENCILLINE_COLOR1, PENCILLINE_COLOR1_TOLERANCE]
    refine ⟨?_, ?_, ?_⟩ <;> omega
  have hgroup : PENCILLINE_COLOR_GROUP = 1 := rfl
  have hend : PENCILLINE_COLOR_GROUP_END = 50 := rfl
  have hnum : PENCILLINE_NUM_PARAMS = 59 := rfl
  have hrange : ∀ idx : Int, (∃ k : Int, 1 ≤ k ∧ k ≤ 16 ∧
      (idx = COLOR_ENABLED_PARAM k ∨ idx = COLOR_PARAM k ∨ idx = COLOR_TOLERANCE_PARAM k)) →
      PENCILLINE_COLOR_GROUP < idx ∧ idx < PENCILLINE_COLOR_GROUP_END ∧
      idx < PENCILLINE_NUM_PARAMS := by
    rintro idx ⟨k, h1, h2, h3⟩
    obtain ⟨a, b, c⟩ := hmacro k
    rw [hgroup, hend, hnum]
    rcases h3 with h | h | h <;> rw [h] <;> refine ⟨?_, ?_, ?_⟩ <;> omega
  refine ⟨⟨by decide, by decide, by decide⟩, hmacro, by decide, ⟨rfl, rfl, by decide, rfl⟩,
    ?_, ?_, ?_⟩
  · intro n h1 h2
    obtain ⟨a, b, c⟩ := hmacro n
    rw [a, b, c, hgroup, hend, hnum]
    refine ⟨⟨?_, ?_⟩, ⟨?_, ?_⟩, ⟨?_, ?_⟩, ?_⟩ <;> omega
  · intro idx hidx
    exact hrange idx (PreRender_colorLoop_checkouts cx host MAX_COLORS idx hidx)
  · intro idx hidx
    exact hrange idx (UpdateParameterUI_loop_reads suite params MAX_COLORS idx hidx)

/-- C17 at `exampleHost` and `exampleUIParams`, for colour 16. -/
theorem C17_parameter_indices_witness :
    ((1 : Int) ≤ 16 ∧ (16 : Int) ≤ 16) ∧
    ((PENCILLINE_COLOR_GROUP < COLOR_ENABLED_PARAM 16 ∧
        COLOR_ENABLED_PARAM 16 < PENCILLINE_COLOR_GROUP_END) ∧
      (PENCILLINE_COLOR_GROUP < COLOR_PARAM 16 ∧
        COLOR_PARAM 16 < PENCILLINE_COLOR_GROUP_END) ∧
      (PENCILLINE_COLOR_GROUP < COLOR_TOLERANCE_PARAM 16 ∧
        COLOR_TOLERANCE_PARAM 16 < PENCILLINE_COLOR_GROUP_END) ∧
      PENCILLINE_COLOR_GROUP_END < PENCILLINE_NUM_PARAMS) ∧
    (∀ idx ∈ (PreRender.colorLoop exampleCX exampleHost PreRender.init MAX_COLORS).checkouts,
      PENCILLINE_COLOR_GROUP < idx ∧ idx < PENCILLINE_COLOR_GROUP_END ∧
      idx < PENCILLINE_NUM_PARAMS) ∧
    (∀ idx ∈ (UpdateParameterUI (fun _ _ => PF_Err_NONE) exampleUIParams).reads,
      PENCILLINE_COLOR_GROUP < idx ∧ idx < PENCILLINE_COLOR_GROUP_END ∧
      idx < PENCILLINE_NUM_PARAMS) :=
  ⟨by decide,
    (C17_parameter_indices exampleCX exampleHost (fun _ _ => PF_Err_NONE)
      exampleUIParams).2.2.2.2.1 16 (by decide) (by decide),
    (C17_parameter_indices exampleCX exampleHost (fun _ _ => PF_Err_NONE)
      exampleUIParams).2.2.2.2.2.1,
    (C17_parameter_indices exampleCX exampleHost (fun _ _ => PF_Err_NONE)
      exampleUIParams).2.2.2.2.2.2⟩

end PencilLine
